import Mathlib

/-! The strace TEE ioctl decoder (`tee.c`).

A shallow embedding of the decoder for the TEE (Trusted Execution Environment)
ioctl family.  The C functions print to the trace output and read the traced
process's memory; here each function returns the list of print events it emits,
the list of memory reads it attempts (address, length), and its return value.

Integers are `Nat` with explicit `% 2 ^ 64` where the C arithmetic is done in a
64-bit unsigned type.
-/

namespace Tee

/-! ## Traced process, memory reader -/

/-- The part of `struct tcb` the decoder looks at: the phase (`entering(tcp)`),
whether the traced call failed (`syserror(tcp)`), and the traced process's
memory, a partial map from addresses to bytes. -/
structure tcb where
  entering : Bool
  syserror : Bool
  mem : Nat → Option Nat

/-- Modelled from the spec: `umoven` (defs.h, not in this file) is the remote
memory reader `read_exact(address, length) -> bytes | Fail`: it yields the `len`
bytes at `addr`, and fails when any of them is inaccessible. -/
def umoven (tcp : tcb) (addr len : Nat) : Option (List Nat) :=
  (List.range len).mapM (fun i => tcp.mem (addr + i))

/-- Little-endian value of a byte string. -/
def le_bytes : List Nat → Nat
  | [] => 0
  | b :: bs => b % 256 + 256 * le_bytes bs

/-- The unsigned field of `len` bytes at byte offset `off` of a struct image. -/
def field (bs : List Nat) (off len : Nat) : Nat :=
  le_bytes ((bs.drop off).take len)

/-- The value of a 32-bit field read as `__s32`. -/
def s32 (v : Nat) : Int :=
  if v < 2 ^ 31 then (v : Int) else (v : Int) - 2 ^ 32

/-- The value of a 64-bit field read as `__s64`. -/
def s64 (v : Nat) : Int :=
  if v < 2 ^ 63 then (v : Int) else (v : Int) - 2 ^ 64

/-! ## Output events -/

/-- Names of the symbolic-name tables (`xlat`) the decoder passes to the
lookup printers; their contents live outside this file. -/
inductive xlat where
  | tee_ioctl_param_attr_types
  | tee_ioctl_impl_ids
  | tee_ioctl_gen_caps
  | tee_ioctl_optee_caps
  | tee_ioctl_login_types
  | tee_ioctl_origins
  | tee_ioctl_shm_flags
  deriving DecidableEq, Repr

/-- One print event on the trace output.  `lit` is literal text (`tprints`, the
constant part of a `tprintf` format, a field prefix or name); the others are a
value handed to one of the formatting helpers. -/
inductive Out where
  /-- Literal text. -/
  | lit (s : String)
  /-- Unsigned decimal (`%llu`). -/
  | u (v : Nat)
  /-- Signed decimal (`%lld`). -/
  | d (v : Int)
  /-- Hexadecimal (`%#llx`). -/
  | x (v : Nat)
  /-- An address, `printaddr` / `printaddr64`. -/
  | addr (v : Nat)
  /-- Symbolic value lookup, `printxval(table, value, default)`. -/
  | xval (t : xlat) (v : Nat) (dflt : String)
  /-- Symbolic flags lookup, `printflags(table, value, default)`. -/
  | flags (t : xlat) (v : Nat) (dflt : String)
  /-- A 16-byte UUID, `PRINT_FIELD_UUID`. -/
  | uuid (bytes : List Nat)
  /-- A byte array in hex, `PRINT_FIELD_X_ARRAY`. -/
  | x_array (bytes : List Nat)
  /-- A file descriptor, `printfd`. -/
  | fd (v : Int)
  /-- A user or group id, `printuid`. -/
  | uid (v : Nat)
  deriving DecidableEq, Repr

/-- Modelled from the spec: the formatting collaborator `tprints(s)` (defs.h), as one
print event. -/
def tprints (s : String) : List Out := [Out.lit s]

/-- Modelled from the spec: the formatting collaborator `printaddr(addr)` (defs.h), as one
print event. -/
def printaddr (a : Nat) : List Out := [Out.addr a]

/-- Modelled from the spec: the formatting collaborator `printxval(xlat, val, dflt)` (defs.h), as one
print event. -/
def printxval (t : xlat) (v : Nat) (dflt : String) : List Out := [Out.xval t v dflt]

/-- Modelled from the spec: the formatting collaborator `printuid(text, uid)` (defs.h), as one
print event: the text, then the id. -/
def printuid (text : String) (v : Nat) : List Out := [Out.lit text, Out.uid v]

/-- Modelled from the spec: the field printer `PRINT_FIELD_U(prefix, where, field)`
(print_fields.h): prefix, field name, `=`, value: `prefix field=%llu`. -/
def PRINT_FIELD_U (pfx name : String) (v : Nat) : List Out :=
  [Out.lit pfx, Out.lit name, Out.lit "=", Out.u v]

/-- Modelled from the spec: the field printer `PRINT_FIELD_D(prefix, where, field)`
(print_fields.h): prefix, field name, `=`, value: `prefix field=%lld`. -/
def PRINT_FIELD_D (pfx name : String) (v : Int) : List Out :=
  [Out.lit pfx, Out.lit name, Out.lit "=", Out.d v]

/-- Modelled from the spec: the field printer `PRINT_FIELD_X(prefix, where, field)`
(print_fields.h): prefix, field name, `=`, value: `prefix field=%#llx`. -/
def PRINT_FIELD_X (pfx name : String) (v : Nat) : List Out :=
  [Out.lit pfx, Out.lit name, Out.lit "=", Out.x v]

/-- Embeds `PRINT_FIELD_SESSION`: the session id is printed as `PRINT_FIELD_X`. -/
def PRINT_FIELD_SESSION (pfx name : String) (v : Nat) : List Out :=
  PRINT_FIELD_X pfx name v

/-- Modelled from the spec: the field printer `PRINT_FIELD_ADDR64(prefix, where, field)`
(print_fields.h): prefix, field name, `=`, value. -/
def PRINT_FIELD_ADDR64 (pfx name : String) (v : Nat) : List Out :=
  [Out.lit pfx, Out.lit name, Out.lit "=", Out.addr v]

/-- Modelled from the spec: the field printer `PRINT_FIELD_XVAL(prefix, where, field, xlat, dflt)`
(print_fields.h): prefix, field name, `=`, value. -/
def PRINT_FIELD_XVAL (pfx name : String) (v : Nat) (t : xlat) (dflt : String) : List Out :=
  [Out.lit pfx, Out.lit name, Out.lit "=", Out.xval t v dflt]

/-- Modelled from the spec: the field printer `PRINT_FIELD_FLAGS(prefix, where, field, xlat, dflt)`
(print_fields.h): prefix, field name, `=`, value. -/
def PRINT_FIELD_FLAGS (pfx name : String) (v : Nat) (t : xlat) (dflt : String) : List Out :=
  [Out.lit pfx, Out.lit name, Out.lit "=", Out.flags t v dflt]

/-- Modelled from the spec: the field printer `PRINT_FIELD_UUID(prefix, where, field)`
(print_fields.h): prefix, field name, `=`, value. -/
def PRINT_FIELD_UUID (pfx name : String) (bytes : List Nat) : List Out :=
  [Out.lit pfx, Out.lit name, Out.lit "=", Out.uuid bytes]

/-- Modelled from the spec: the field printer `PRINT_FIELD_X_ARRAY(prefix, where, field)`
(print_fields.h): prefix, field name, `=`, value. -/
def PRINT_FIELD_X_ARRAY (pfx name : String) (bytes : List Nat) : List Out :=
  [Out.lit pfx, Out.lit name, Out.lit "=", Out.x_array bytes]

/-- Modelled from the spec: the field printer `PRINT_FIELD_FD(prefix, where, field, tcp)`
(print_fields.h): prefix, field name, `=`, value. -/
def PRINT_FIELD_FD (pfx name : String) (v : Int) : List Out :=
  [Out.lit pfx, Out.lit name, Out.lit "=", Out.fd v]

/-! ## Constants of `defs.h` and `tee.h` -/

/-- Modelled from the spec: `RVAL_DECODED` (defs.h), the "not handled by this
protocol family" result of the dispatcher. -/
def RVAL_DECODED : Nat := 0o100

/-- Modelled from the spec: `RVAL_IOCTL_DECODED` (defs.h), the terminal
"decoded" result. -/
def RVAL_IOCTL_DECODED : Nat := 0o200

/-- Modelled from the spec: `TEE_MAX_ARG_SIZE` (tee.h), the ceiling on any
`buf_len` the decoder will act on; it matches the kernel's own limit, `1024`. -/
def TEE_MAX_ARG_SIZE : Nat := 1024

/-- Modelled from the spec: `sizeof(struct tee_ioctl_param)` (tee.h, kernel ABI): a 32-byte record (spec §6). -/
def sizeof_tee_ioctl_param : Nat := 32

/-- Modelled from the spec: `TEE_IOCTL_PARAM_SIZE(x)` (tee.h): `sizeof(struct tee_ioctl_param) * (x)`,
a `size_t` product. -/
def TEE_IOCTL_PARAM_SIZE (x : Nat) : Nat := (sizeof_tee_ioctl_param * x) % 2 ^ 64

/-- Modelled from the spec: the parameter tag values of `tee.h` (NONE,
VALUE_INPUT, VALUE_OUTPUT, VALUE_INOUT, MEMREF_INPUT, MEMREF_OUTPUT,
MEMREF_INOUT), with the numbering of the kernel ABI. -/
def TEE_IOCTL_PARAM_ATTR_TYPE_NONE : Nat := 0
def TEE_IOCTL_PARAM_ATTR_TYPE_VALUE_INPUT : Nat := 1
def TEE_IOCTL_PARAM_ATTR_TYPE_VALUE_OUTPUT : Nat := 2
def TEE_IOCTL_PARAM_ATTR_TYPE_VALUE_INOUT : Nat := 3
def TEE_IOCTL_PARAM_ATTR_TYPE_MEMREF_INPUT : Nat := 5
def TEE_IOCTL_PARAM_ATTR_TYPE_MEMREF_OUTPUT : Nat := 6
def TEE_IOCTL_PARAM_ATTR_TYPE_MEMREF_INOUT : Nat := 7
/-- The META bit, combinable with any of the attribute types. -/
def TEE_IOCTL_PARAM_ATTR_META : Nat := 0x100

/-- Modelled from the spec: `TEE_IMPL_ID_OPTEE` (tee.h). -/
def TEE_IMPL_ID_OPTEE : Nat := 1

/-- Modelled from the spec: the client login kinds of `tee.h`, with the
numbering of the kernel ABI. -/
def TEE_IOCTL_LOGIN_PUBLIC : Nat := 0
def TEE_IOCTL_LOGIN_USER : Nat := 1
def TEE_IOCTL_LOGIN_GROUP : Nat := 2
def TEE_IOCTL_LOGIN_APPLICATION : Nat := 4
def TEE_IOCTL_LOGIN_USER_APPLICATION : Nat := 5
def TEE_IOCTL_LOGIN_GROUP_APPLICATION : Nat := 6

/-- Modelled from the spec: `sizeof(gid_t)`. -/
def sizeof_gid_t : Nat := 4

/-! ## Struct images -/

/-- Modelled from the spec: `struct tee_ioctl_buf_data` (tee.h), the header
`u32 buf_len; [4 bytes pad]; u64 buf_ptr;`, 16 bytes. -/
structure tee_ioctl_buf_data where
  buf_len : Nat
  buf_ptr : Nat
  deriving DecidableEq, Repr

/-- Modelled from the spec: `sizeof(struct tee_ioctl_buf_data)` (tee.h, kernel ABI). -/
def sizeof_tee_ioctl_buf_data : Nat := 16

/-- The header decoded from its 16-byte image. -/
def tee_ioctl_buf_data.ofBytes (bs : List Nat) : tee_ioctl_buf_data :=
  { buf_len := field bs 0 4, buf_ptr := field bs 8 8 }

/-- Modelled from the spec: `struct tee_ioctl_param` (tee.h), the record
`u32 attr; [4 bytes pad]; u64 a; u64 b; u64 c;`, 32 bytes. -/
structure tee_ioctl_param where
  attr : Nat
  a : Nat
  b : Nat
  c : Nat
  deriving DecidableEq, Repr

/-- The parameter record decoded from its 32-byte image. -/
def tee_ioctl_param.ofBytes (bs : List Nat) : tee_ioctl_param :=
  { attr := field bs 0 4, a := field bs 8 8, b := field bs 16 8, c := field bs 24 8 }

/-! ## Header validation -/

/-- What a decoder produces for one observation: its return value, the print
events it emitted and the memory reads it attempted, both in order. -/
structure Result where
  rval : Nat
  out : List Out
  reads : List (Nat × Nat)
  deriving DecidableEq, Repr

/-- Modelled from the spec: `umove_or_printaddr` (defs.h) is
`read_struct<T>(address) -> T | Fail`; a failed read renders the address itself
and yields no struct. -/
def umove_or_printaddr (tcp : tcb) (addr size : Nat) : Option (List Nat) × List Out :=
  match umoven tcp addr size with
  | some bs => (some bs, [])
  | none => (none, printaddr addr)

/-- Embeds `tee_print_buf`: the header rendering `{buf_len=..., buf_ptr=...}`. -/
def tee_print_buf (buf : tee_ioctl_buf_data) : List Out :=
  PRINT_FIELD_U "\x7b" "buf_len" buf.buf_len ++
  PRINT_FIELD_ADDR64 ", " "buf_ptr" buf.buf_ptr ++
  tprints "\x7d"

/-- What `tee_fetch_buf_data` leaves behind: return value, print events, reads,
and the out-parameters `*buf`, `*arg_struct`, `*num_params` and `*params`
(the out-parameters hold defaults where the C code leaves them unwritten). -/
structure fetch_result where
  rval : Nat
  out : List Out
  reads : List (Nat × Nat)
  buf : tee_ioctl_buf_data
  arg_struct : List Nat
  num_params : Nat
  params : Nat
  deriving DecidableEq, Repr

/-- Embeds `tee_fetch_buf_data(tcp, arg, buf, arg_size, arg_struct, num_params, params)`.
`num_params` points into `arg_struct`; `num_params_off` is its byte offset
there, so `*num_params` is the 32-bit field of the struct just read. -/
def tee_fetch_buf_data (tcp : tcb) (arg : Nat) (arg_size : Nat) (num_params_off : Nat) :
    fetch_result :=
  match umove_or_printaddr tcp arg sizeof_tee_ioctl_buf_data with
  | (none, o) =>
    { rval := RVAL_IOCTL_DECODED, out := o, reads := [(arg, sizeof_tee_ioctl_buf_data)],
      buf := ⟨0, 0⟩, arg_struct := [], num_params := 0, params := 0 }
  | (some hb, o) =>
    let buf := tee_ioctl_buf_data.ofBytes hb
    if buf.buf_len > TEE_MAX_ARG_SIZE ∨ buf.buf_len < arg_size then
      { rval := RVAL_IOCTL_DECODED, out := o ++ tee_print_buf buf,
        reads := [(arg, sizeof_tee_ioctl_buf_data)],
        buf := buf, arg_struct := [], num_params := 0, params := 0 }
    else
      match umoven tcp buf.buf_ptr arg_size with
      | none =>
        { rval := RVAL_IOCTL_DECODED, out := o ++ tee_print_buf buf,
          reads := [(arg, sizeof_tee_ioctl_buf_data), (buf.buf_ptr, arg_size)],
          buf := buf, arg_struct := [], num_params := 0, params := 0 }
      | some sb =>
        let num_params := field sb num_params_off 4
        if tcp.entering = true ∧
            (arg_size + TEE_IOCTL_PARAM_SIZE num_params) % 2 ^ 64 ≠ buf.buf_len then
          { rval := RVAL_IOCTL_DECODED, out := o ++ tee_print_buf buf,
            reads := [(arg, sizeof_tee_ioctl_buf_data), (buf.buf_ptr, arg_size)],
            buf := buf, arg_struct := sb, num_params := num_params, params := 0 }
        else
          { rval := 0, out := o,
            reads := [(arg, sizeof_tee_ioctl_buf_data), (buf.buf_ptr, arg_size)],
            buf := buf, arg_struct := sb, num_params := num_params,
            params := if num_params ≠ 0 then (buf.buf_ptr + arg_size) % 2 ^ 64 else 0 }

/-! ## Parameter array -/

/-- Embeds `tee_print_param_fn`, on the record `elem_buf` is cast to.  The first
component is the C return value, always `true`. -/
def tee_print_param_fn (param : tee_ioctl_param) : Bool × List Out :=
  (true,
    tprints "\x7battr=" ++
    printxval xlat.tee_ioctl_param_attr_types
      (param.attr &&& (0xFFFFFFFF ^^^ TEE_IOCTL_PARAM_ATTR_META))
      "TEE_IOCTL_PARAM_ATTR_" ++
    (if param.attr &&& TEE_IOCTL_PARAM_ATTR_META ≠ 0 then
      tprints "|TEE_IOCTL_PARAM_ATTR_META" else []) ++
    (if param.attr = TEE_IOCTL_PARAM_ATTR_TYPE_NONE then
      []
    else if param.attr = TEE_IOCTL_PARAM_ATTR_TYPE_MEMREF_INPUT ∨
        param.attr = TEE_IOCTL_PARAM_ATTR_TYPE_MEMREF_INOUT ∨
        param.attr = TEE_IOCTL_PARAM_ATTR_TYPE_MEMREF_OUTPUT then
      [Out.lit ", shm_offs=", Out.x param.a] ++
      [Out.lit ", size=", Out.x param.b] ++
      [Out.lit ", shm_id=", Out.u param.c]
    else
      PRINT_FIELD_X ", " "a" param.a ++
      PRINT_FIELD_X ", " "b" param.b ++
      PRINT_FIELD_X ", " "c" param.c) ++
    tprints "\x7d")

/-- One element of `print_array`: a separator before every element but the
first, then the record fetched at `cur` and printed, or a placeholder (the
address) when the fetch fails. -/
def print_array_elem (tcp : tcb) (start_addr elem_size : Nat)
    (print_func : List Nat → Bool × List Out) (idx : Nat) : List Out :=
  (if idx ≠ 0 then tprints ", " else []) ++
  (match umoven tcp (start_addr + idx * elem_size) elem_size with
   | some bs => (print_func bs).2
   | none => printaddr (start_addr + idx * elem_size))

/-- Modelled from the spec: `print_array` (util.c, not in this file) is the
parameter array decoder of spec §4.3: a finite sequence of length `nmemb`, each
element independently fetched at `start_addr + idx * elem_size` and decoded; a
failure on one element renders a placeholder for that element only and the
sequence continues.  The elements are rendered between `[` and `]`. -/
def print_array (tcp : tcb) (start_addr nmemb elem_size : Nat)
    (print_func : List Nat → Bool × List Out) : List Out × List (Nat × Nat) :=
  (tprints "[" ++
    ((List.range nmemb).map (print_array_elem tcp start_addr elem_size print_func)).flatten ++
    tprints "]",
   (List.range nmemb).map (fun idx => (start_addr + idx * elem_size, elem_size)))

/-- Embeds `tee_print_params(tcp, params_start, num_params)`. -/
def tee_print_params (tcp : tcb) (params_start num_params : Nat) :
    List Out × List (Nat × Nat) :=
  let r := print_array tcp params_start num_params sizeof_tee_ioctl_param
    (fun elem_buf => tee_print_param_fn (tee_ioctl_param.ofBytes elem_buf))
  (tprints ", params=" ++ r.1, r.2)

/-! ## Command structs

The layouts are those of the kernel ABI (`tee.h`); only the fields the decoder
prints are extracted. -/

/-- Modelled from the spec: `sizeof(struct tee_ioctl_version_data)` (tee.h, kernel ABI): `u32 impl_id, impl_caps, gen_caps`. -/
def sizeof_tee_ioctl_version_data : Nat := 12

/-- Modelled from the spec: `sizeof(struct tee_ioctl_open_session_arg)` (tee.h, kernel ABI): `u8 uuid[16]; u8 clnt_uuid[16];
u32 clnt_login, cancel_id, session, ret, ret_origin, num_params`. -/
def sizeof_tee_ioctl_open_session_arg : Nat := 56

/-- Modelled from the spec: `offsetof(struct tee_ioctl_open_session_arg, num_params)` (tee.h, kernel ABI). -/
def offsetof_open_session_num_params : Nat := 52

/-- Modelled from the spec: `sizeof(struct tee_ioctl_invoke_arg)` (tee.h, kernel ABI): `u32 func, session, cancel_id, ret,
ret_origin, num_params`. -/
def sizeof_tee_ioctl_invoke_arg : Nat := 24

/-- Modelled from the spec: `offsetof(struct tee_ioctl_invoke_arg, num_params)` (tee.h, kernel ABI). -/
def offsetof_invoke_num_params : Nat := 20

/-- Modelled from the spec: `sizeof(struct tee_ioctl_cancel_arg)` (tee.h, kernel ABI): `u32 cancel_id, session`. -/
def sizeof_tee_ioctl_cancel_arg : Nat := 8

/-- Modelled from the spec: `sizeof(struct tee_ioctl_close_session_arg)` (tee.h, kernel ABI): `u32 session`. -/
def sizeof_tee_ioctl_close_session_arg : Nat := 4

/-- Modelled from the spec: `sizeof(struct tee_iocl_supp_recv_arg)` (tee.h, kernel ABI): `u32 func, num_params`. -/
def sizeof_tee_iocl_supp_recv_arg : Nat := 8

/-- Modelled from the spec: `offsetof(struct tee_iocl_supp_recv_arg, num_params)` (tee.h, kernel ABI). -/
def offsetof_supp_recv_num_params : Nat := 4

/-- Modelled from the spec: `sizeof(struct tee_iocl_supp_send_arg)` (tee.h, kernel ABI): `u32 ret, num_params`. -/
def sizeof_tee_iocl_supp_send_arg : Nat := 8

/-- Modelled from the spec: `offsetof(struct tee_iocl_supp_send_arg, num_params)` (tee.h, kernel ABI). -/
def offsetof_supp_send_num_params : Nat := 4

/-- Modelled from the spec: `sizeof(struct tee_ioctl_shm_alloc_data)` (tee.h, kernel ABI): `u64 size; u32 flags; s32 id`. -/
def sizeof_tee_ioctl_shm_alloc_data : Nat := 16

/-- Modelled from the spec: `sizeof(struct tee_ioctl_shm_register_fd_data)` (tee.h, kernel ABI): `s64 fd; u64 size;
u32 flags; s32 id`. -/
def sizeof_tee_ioctl_shm_register_fd_data : Nat := 24

/-- Modelled from the spec: `sizeof(struct tee_ioctl_shm_register_data)` (tee.h, kernel ABI): `u64 addr, length; u32 flags;
s32 id`. -/
def sizeof_tee_ioctl_shm_register_data : Nat := 24

/-! ## Command decoders -/

/-- Embeds `tee_version`. -/
def tee_version (tcp : tcb) (arg : Nat) : Result :=
  if tcp.entering then
    { rval := 0, out := tprints ", ", reads := [] }
  else
    match umove_or_printaddr tcp arg sizeof_tee_ioctl_version_data with
    | (none, o) =>
      { rval := RVAL_IOCTL_DECODED, out := o,
        reads := [(arg, sizeof_tee_ioctl_version_data)] }
    | (some version, o) =>
      { rval := RVAL_IOCTL_DECODED,
        out := o ++
          PRINT_FIELD_XVAL "\x7b" "impl_id" (field version 0 4)
            xlat.tee_ioctl_impl_ids "TEE_IMPL_ID_???" ++
          PRINT_FIELD_FLAGS ", " "gen_caps" (field version 8 4)
            xlat.tee_ioctl_gen_caps "TEE_GEN_CAP_???" ++
          (if field version 0 4 = TEE_IMPL_ID_OPTEE then
            PRINT_FIELD_FLAGS ", " "impl_caps" (field version 4 4)
              xlat.tee_ioctl_optee_caps "TEE_OPTEE_CAP_???"
          else
            PRINT_FIELD_X ", " "impl_caps" (field version 4 4)) ++
          tprints "\x7d",
        reads := [(arg, sizeof_tee_ioctl_version_data)] }

/-- The `clnt_uuid` part of the entry rendering of `tee_open_session`: the
`switch (open_session.clnt_login)`. -/
def open_session_clnt_uuid (clnt_login : Nat) (clnt_uuid : List Nat) : List Out :=
  if clnt_login = TEE_IOCTL_LOGIN_PUBLIC ∨ clnt_login = TEE_IOCTL_LOGIN_USER ∨
      clnt_login = TEE_IOCTL_LOGIN_APPLICATION ∨
      clnt_login = TEE_IOCTL_LOGIN_USER_APPLICATION then
    []
  else if clnt_login = TEE_IOCTL_LOGIN_GROUP ∨
      clnt_login = TEE_IOCTL_LOGIN_GROUP_APPLICATION then
    printuid ", clnt_uuid=" (le_bytes (clnt_uuid.take sizeof_gid_t))
  else
    PRINT_FIELD_X_ARRAY ", " "clnt_uuid" clnt_uuid

/-- Embeds `tee_open_session`. -/
def tee_open_session (tcp : tcb) (arg : Nat) : Result :=
  if tcp.entering then
    let f := tee_fetch_buf_data tcp arg sizeof_tee_ioctl_open_session_arg
      offsetof_open_session_num_params
    if f.rval ≠ 0 then
      { rval := f.rval, out := tprints ", " ++ f.out, reads := f.reads }
    else
      let open_session := f.arg_struct
      let p := tee_print_params tcp f.params (field open_session 52 4)
      { rval := 0,
        out := tprints ", " ++ f.out ++
          PRINT_FIELD_U "\x7b" "buf_len" f.buf.buf_len ++
          PRINT_FIELD_UUID ", buf_ptr=\x7b" "uuid" ((open_session.drop 0).take 16) ++
          PRINT_FIELD_XVAL ", " "clnt_login" (field open_session 32 4)
            xlat.tee_ioctl_login_types "TEE_IOCTL_LOGIN_???" ++
          open_session_clnt_uuid (field open_session 32 4)
            ((open_session.drop 16).take 16) ++
          PRINT_FIELD_U ", " "cancel_id" (field open_session 36 4) ++
          PRINT_FIELD_U ", " "num_params" (field open_session 52 4) ++
          p.1 ++
          tprints "\x7d",
        reads := f.reads ++ p.2 }
  else if tcp.syserror then
    { rval := RVAL_IOCTL_DECODED, out := tprints "\x7d", reads := [] }
  else
    let f := tee_fetch_buf_data tcp arg sizeof_tee_ioctl_open_session_arg
      offsetof_open_session_num_params
    if f.rval ≠ 0 then
      { rval := f.rval, out := tprints " => " ++ f.out, reads := f.reads }
    else
      let open_session := f.arg_struct
      let p := tee_print_params tcp f.params (field open_session 52 4)
      { rval := RVAL_IOCTL_DECODED,
        out := tprints " => " ++ f.out ++
          PRINT_FIELD_SESSION "\x7b" "session" (field open_session 40 4) ++
          PRINT_FIELD_U ", " "ret" (field open_session 44 4) ++
          PRINT_FIELD_XVAL ", " "ret_origin" (field open_session 48 4)
            xlat.tee_ioctl_origins "TEEC_ORIGIN_???" ++
          p.1 ++
          tprints "\x7d\x7d",
        reads := f.reads ++ p.2 }

/-- Embeds `tee_invoke`. -/
def tee_invoke (tcp : tcb) (arg : Nat) : Result :=
  if tcp.entering then
    let f := tee_fetch_buf_data tcp arg sizeof_tee_ioctl_invoke_arg
      offsetof_invoke_num_params
    if f.rval ≠ 0 then
      { rval := f.rval, out := tprints ", " ++ f.out, reads := f.reads }
    else
      let invoke := f.arg_struct
      let p := tee_print_params tcp f.params (field invoke 20 4)
      { rval := 0,
        out := tprints ", " ++ f.out ++
          PRINT_FIELD_U "\x7b" "buf_len" f.buf.buf_len ++
          PRINT_FIELD_U ", buf_ptr=\x7b" "func" (field invoke 0 4) ++
          PRINT_FIELD_SESSION ", " "session" (field invoke 4 4) ++
          PRINT_FIELD_U ", " "cancel_id" (field invoke 8 4) ++
          PRINT_FIELD_U ", " "num_params" (field invoke 20 4) ++
          p.1 ++
          tprints "\x7d",
        reads := f.reads ++ p.2 }
  else if tcp.syserror then
    { rval := RVAL_IOCTL_DECODED, out := tprints "\x7d", reads := [] }
  else
    let f := tee_fetch_buf_data tcp arg sizeof_tee_ioctl_invoke_arg
      offsetof_invoke_num_params
    if f.rval ≠ 0 then
      { rval := f.rval, out := tprints " => " ++ f.out, reads := f.reads }
    else
      let invoke := f.arg_struct
      let p := tee_print_params tcp f.params (field invoke 20 4)
      { rval := RVAL_IOCTL_DECODED,
        out := tprints " => " ++ f.out ++
          PRINT_FIELD_U "\x7b" "ret" (field invoke 12 4) ++
          PRINT_FIELD_XVAL ", " "ret_origin" (field invoke 16 4)
            xlat.tee_ioctl_origins "TEEC_ORIGIN_???" ++
          p.1 ++
          tprints "\x7d\x7d",
        reads := f.reads ++ p.2 }

/-- Embeds `tee_cancel`. -/
def tee_cancel (tcp : tcb) (arg : Nat) : Result :=
  match umove_or_printaddr tcp arg sizeof_tee_ioctl_cancel_arg with
  | (none, o) =>
    { rval := RVAL_IOCTL_DECODED, out := tprints ", " ++ o,
      reads := [(arg, sizeof_tee_ioctl_cancel_arg)] }
  | (some cancel, o) =>
    { rval := RVAL_IOCTL_DECODED,
      out := tprints ", " ++ o ++
        PRINT_FIELD_U "\x7b" "cancel_id" (field cancel 0 4) ++
        PRINT_FIELD_SESSION ", " "session" (field cancel 4 4) ++
        tprints "\x7d",
      reads := [(arg, sizeof_tee_ioctl_cancel_arg)] }

/-- Embeds `tee_close_session`. -/
def tee_close_session (tcp : tcb) (arg : Nat) : Result :=
  match umove_or_printaddr tcp arg sizeof_tee_ioctl_close_session_arg with
  | (none, o) =>
    { rval := RVAL_IOCTL_DECODED, out := tprints ", " ++ o,
      reads := [(arg, sizeof_tee_ioctl_close_session_arg)] }
  | (some close_session, o) =>
    { rval := RVAL_IOCTL_DECODED,
      out := tprints ", " ++ o ++
        PRINT_FIELD_SESSION "\x7b" "session" (field close_session 0 4) ++
        tprints "\x7d",
      reads := [(arg, sizeof_tee_ioctl_close_session_arg)] }

/-- Embeds `tee_suppl_recv`. -/
def tee_suppl_recv (tcp : tcb) (arg : Nat) : Result :=
  if tcp.entering then
    let f := tee_fetch_buf_data tcp arg sizeof_tee_iocl_supp_recv_arg
      offsetof_supp_recv_num_params
    if f.rval ≠ 0 then
      { rval := f.rval, out := tprints ", " ++ f.out, reads := f.reads }
    else
      let supp_recv := f.arg_struct
      let p := tee_print_params tcp f.params (field supp_recv 4 4)
      { rval := 0,
        out := tprints ", " ++ f.out ++
          PRINT_FIELD_U "\x7b" "buf_len" f.buf.buf_len ++
          PRINT_FIELD_U ", buf_ptr=\x7b" "func" (field supp_recv 0 4) ++
          PRINT_FIELD_U ", " "num_params" (field supp_recv 4 4) ++
          p.1 ++
          tprints "\x7d",
        reads := f.reads ++ p.2 }
  else if tcp.syserror then
    { rval := RVAL_IOCTL_DECODED, out := tprints "\x7d", reads := [] }
  else
    let f := tee_fetch_buf_data tcp arg sizeof_tee_iocl_supp_recv_arg
      offsetof_supp_recv_num_params
    if f.rval ≠ 0 then
      { rval := f.rval, out := tprints " => " ++ f.out, reads := f.reads }
    else
      let supp_recv := f.arg_struct
      let p := tee_print_params tcp f.params (field supp_recv 4 4)
      { rval := RVAL_IOCTL_DECODED,
        out := tprints " => " ++ f.out ++
          PRINT_FIELD_U "\x7b" "num_params" (field supp_recv 4 4) ++
          p.1 ++
          tprints "\x7d\x7d",
        reads := f.reads ++ p.2 }

/-- Embeds `tee_suppl_send`. -/
def tee_suppl_send (tcp : tcb) (arg : Nat) : Result :=
  if tcp.entering then
    let f := tee_fetch_buf_data tcp arg sizeof_tee_iocl_supp_send_arg
      offsetof_supp_send_num_params
    if f.rval ≠ 0 then
      { rval := f.rval, out := tprints ", " ++ f.out, reads := f.reads }
    else
      let supp_send := f.arg_struct
      let p := tee_print_params tcp f.params (field supp_send 4 4)
      { rval := 0,
        out := tprints ", " ++ f.out ++
          PRINT_FIELD_U "\x7b" "buf_len" f.buf.buf_len ++
          PRINT_FIELD_U ", buf_ptr=\x7b" "num_params" (field supp_send 4 4) ++
          p.1 ++
          tprints "\x7d",
        reads := f.reads ++ p.2 }
  else if tcp.syserror then
    { rval := RVAL_IOCTL_DECODED, out := tprints "\x7d", reads := [] }
  else
    let f := tee_fetch_buf_data tcp arg sizeof_tee_iocl_supp_send_arg
      offsetof_supp_send_num_params
    if f.rval ≠ 0 then
      { rval := f.rval, out := tprints " => " ++ f.out, reads := f.reads }
    else
      let supp_send := f.arg_struct
      let p := tee_print_params tcp f.params (field supp_send 4 4)
      { rval := RVAL_IOCTL_DECODED,
        out := tprints " => " ++ f.out ++
          PRINT_FIELD_U "\x7b" "ret" (field supp_send 0 4) ++
          p.1 ++
          tprints "\x7d\x7d",
        reads := f.reads ++ p.2 }

/-- Embeds `tee_shm_alloc`. -/
def tee_shm_alloc (tcp : tcb) (arg : Nat) : Result :=
  if tcp.entering then
    match umove_or_printaddr tcp arg sizeof_tee_ioctl_shm_alloc_data with
    | (none, o) =>
      { rval := RVAL_IOCTL_DECODED, out := tprints ", " ++ o,
        reads := [(arg, sizeof_tee_ioctl_shm_alloc_data)] }
    | (some shm_alloc, o) =>
      { rval := 0,
        out := tprints ", " ++ o ++
          PRINT_FIELD_X "\x7b" "size" (field shm_alloc 0 8) ++
          PRINT_FIELD_FLAGS ", " "flags" (field shm_alloc 8 4)
            xlat.tee_ioctl_shm_flags "TEE_IOCTL_SHM_???" ++
          tprints "\x7d",
        reads := [(arg, sizeof_tee_ioctl_shm_alloc_data)] }
  else if tcp.syserror then
    { rval := RVAL_IOCTL_DECODED, out := [], reads := [] }
  else
    match umove_or_printaddr tcp arg sizeof_tee_ioctl_shm_alloc_data with
    | (none, o) =>
      { rval := RVAL_IOCTL_DECODED, out := tprints " => " ++ o,
        reads := [(arg, sizeof_tee_ioctl_shm_alloc_data)] }
    | (some shm_alloc, o) =>
      { rval := RVAL_IOCTL_DECODED,
        out := tprints " => " ++ o ++
          PRINT_FIELD_X "\x7b" "size" (field shm_alloc 0 8) ++
          PRINT_FIELD_FLAGS ", " "flags" (field shm_alloc 8 4)
            xlat.tee_ioctl_shm_flags "TEE_IOCTL_SHM_???" ++
          PRINT_FIELD_D ", " "id" (s32 (field shm_alloc 12 4)) ++
          tprints "\x7d",
        reads := [(arg, sizeof_tee_ioctl_shm_alloc_data)] }

/-- Embeds `tee_shm_register_fd`. -/
def tee_shm_register_fd (tcp : tcb) (arg : Nat) : Result :=
  if tcp.entering then
    match umove_or_printaddr tcp arg sizeof_tee_ioctl_shm_register_fd_data with
    | (none, o) =>
      { rval := RVAL_IOCTL_DECODED, out := tprints ", " ++ o,
        reads := [(arg, sizeof_tee_ioctl_shm_register_fd_data)] }
    | (some shm_register_fd, o) =>
      { rval := 0,
        out := tprints ", " ++ o ++
          PRINT_FIELD_FD "\x7b" "fd" (s64 (field shm_register_fd 0 8)) ++
          PRINT_FIELD_FLAGS ", " "flags" (field shm_register_fd 16 4)
            xlat.tee_ioctl_shm_flags "TEE_IOCTL_SHM_???" ++
          tprints "\x7d",
        reads := [(arg, sizeof_tee_ioctl_shm_register_fd_data)] }
  else if tcp.syserror then
    { rval := RVAL_IOCTL_DECODED, out := [], reads := [] }
  else
    match umove_or_printaddr tcp arg sizeof_tee_ioctl_shm_register_fd_data with
    | (none, o) =>
      { rval := RVAL_IOCTL_DECODED, out := tprints " => " ++ o,
        reads := [(arg, sizeof_tee_ioctl_shm_register_fd_data)] }
    | (some shm_register_fd, o) =>
      { rval := RVAL_IOCTL_DECODED,
        out := tprints " => " ++ o ++
          PRINT_FIELD_X "\x7b" "size" (field shm_register_fd 8 8) ++
          PRINT_FIELD_D ", " "id" (s32 (field shm_register_fd 20 4)) ++
          tprints "\x7d",
        reads := [(arg, sizeof_tee_ioctl_shm_register_fd_data)] }

/-- Embeds `tee_shm_register`. -/
def tee_shm_register (tcp : tcb) (arg : Nat) : Result :=
  if tcp.entering then
    match umove_or_printaddr tcp arg sizeof_tee_ioctl_shm_register_data with
    | (none, o) =>
      { rval := RVAL_IOCTL_DECODED, out := tprints ", " ++ o,
        reads := [(arg, sizeof_tee_ioctl_shm_register_data)] }
    | (some shm_register, o) =>
      { rval := 0,
        out := tprints ", " ++ o ++
          PRINT_FIELD_ADDR64 "\x7b" "addr" (field shm_register 0 8) ++
          PRINT_FIELD_X ", " "length" (field shm_register 8 8) ++
          PRINT_FIELD_FLAGS ", " "flags" (field shm_register 16 4)
            xlat.tee_ioctl_shm_flags "TEE_IOCTL_SHM_???" ++
          tprints "\x7d",
        reads := [(arg, sizeof_tee_ioctl_shm_register_data)] }
  else if tcp.syserror then
    { rval := RVAL_IOCTL_DECODED, out := [], reads := [] }
  else
    match umove_or_printaddr tcp arg sizeof_tee_ioctl_shm_register_data with
    | (none, o) =>
      { rval := RVAL_IOCTL_DECODED, out := tprints " => " ++ o,
        reads := [(arg, sizeof_tee_ioctl_shm_register_data)] }
    | (some shm_register, o) =>
      { rval := RVAL_IOCTL_DECODED,
        out := tprints " => " ++ o ++
          PRINT_FIELD_X "\x7b" "length" (field shm_register 8 8) ++
          PRINT_FIELD_FLAGS ", " "flags" (field shm_register 16 4)
            xlat.tee_ioctl_shm_flags "TEE_IOCTL_SHM_???" ++
          PRINT_FIELD_D ", " "id" (s32 (field shm_register 20 4)) ++
          tprints "\x7d",
        reads := [(arg, sizeof_tee_ioctl_shm_register_data)] }

/-! ## Dispatcher -/

/-- Modelled from the spec: the operation codes of `tee.h`,
`_IOC(dir, 0xa4, nr, size)` in the generic ioctl encoding. -/
def TEE_IOC_VERSION : Nat := 0x800ca400
def TEE_IOC_SHM_ALLOC : Nat := 0xc010a401
def TEE_IOC_OPEN_SESSION : Nat := 0x8010a402
def TEE_IOC_INVOKE : Nat := 0x8010a403
def TEE_IOC_CANCEL : Nat := 0x8008a404
def TEE_IOC_CLOSE_SESSION : Nat := 0x8004a405
def TEE_IOC_SUPPL_RECV : Nat := 0x8010a406
def TEE_IOC_SUPPL_SEND : Nat := 0x8010a407
def TEE_IOC_SHM_REGISTER_FD : Nat := 0xc018a408
def TEE_IOC_SHM_REGISTER : Nat := 0xc018a409

/-- Embeds `tee_ioctl(tcp, code, arg)`: the `switch (code)`. -/
def tee_ioctl (tcp : tcb) (code : Nat) (arg : Nat) : Result :=
  if code = TEE_IOC_VERSION then tee_version tcp arg
  else if code = TEE_IOC_OPEN_SESSION then tee_open_session tcp arg
  else if code = TEE_IOC_INVOKE then tee_invoke tcp arg
  else if code = TEE_IOC_CANCEL then tee_cancel tcp arg
  else if code = TEE_IOC_CLOSE_SESSION then tee_close_session tcp arg
  else if code = TEE_IOC_SUPPL_RECV then tee_suppl_recv tcp arg
  else if code = TEE_IOC_SUPPL_SEND then tee_suppl_send tcp arg
  else if code = TEE_IOC_SHM_ALLOC then tee_shm_alloc tcp arg
  else if code = TEE_IOC_SHM_REGISTER_FD then tee_shm_register_fd tcp arg
  else if code = TEE_IOC_SHM_REGISTER then tee_shm_register tcp arg
  else { rval := RVAL_DECODED, out := [], reads := [] }

/-- The ten operation codes the `switch` in `tee_ioctl` handles. -/
def handled_codes : List Nat :=
  [TEE_IOC_VERSION, TEE_IOC_OPEN_SESSION, TEE_IOC_INVOKE, TEE_IOC_CANCEL,
   TEE_IOC_CLOSE_SESSION, TEE_IOC_SUPPL_RECV, TEE_IOC_SUPPL_SEND, TEE_IOC_SHM_ALLOC,
   TEE_IOC_SHM_REGISTER_FD, TEE_IOC_SHM_REGISTER]

/-! ## Sample traced processes -/

/-- A memory holding `hdr` at address `4096` and `body` at address `8192`, and
nothing else. -/
def mem_of (hdr body : List Nat) : Nat → Option Nat :=
  fun a =>
    if 4096 ≤ a ∧ a < 4096 + hdr.length then hdr[a - 4096]?
    else if 8192 ≤ a ∧ a < 8192 + body.length then body[a - 8192]?
    else none

/-- The 16-byte header image with the given `buf_len` (below `65536`) and
`buf_ptr = 8192`. -/
def hdr_image (buf_len : Nat) : List Nat :=
  [buf_len % 256, buf_len / 256, 0, 0, 0, 0, 0, 0, 0, 0x20, 0, 0, 0, 0, 0, 0]

/-- A traced process in the given phase whose memory holds a header with the
given `buf_len` at `4096`, pointing at `body` at `8192`. -/
def sample_tcb (entering syserror : Bool) (buf_len : Nat) (body : List Nat) : tcb :=
  { entering := entering, syserror := syserror, mem := mem_of (hdr_image buf_len) body }

/-- The variable-size commands: operation code, `sizeof` of the command struct
and offset of its `num_params` field, as passed by `TEE_FETCH_BUF_DATA` in each
of the four decoders. -/
def variable_size_commands : List (Nat × Nat × Nat) :=
  [(TEE_IOC_OPEN_SESSION, sizeof_tee_ioctl_open_session_arg, offsetof_open_session_num_params),
   (TEE_IOC_INVOKE, sizeof_tee_ioctl_invoke_arg, offsetof_invoke_num_params),
   (TEE_IOC_SUPPL_RECV, sizeof_tee_iocl_supp_recv_arg, offsetof_supp_recv_num_params),
   (TEE_IOC_SUPPL_SEND, sizeof_tee_iocl_supp_send_arg, offsetof_supp_send_num_params)]

/-- The image of a `struct tee_ioctl_invoke_arg` with `num_params = 1` (all other
fields zero) followed by one parameter record with `attr = VALUE_INPUT`,
`a = 0x11`, `b = 0x22`, `c = 0x33`. -/
def invoke_one_param_image : List Nat :=
  [0, 0, 0, 0, 0, 0, 0, 0, 0, 0, 0, 0, 0, 0, 0, 0, 0, 0, 0, 0, 1, 0, 0, 0] ++
  [1, 0, 0, 0, 0, 0, 0, 0, 0x11, 0, 0, 0, 0, 0, 0, 0,
   0x22, 0, 0, 0, 0, 0, 0, 0, 0x33, 0, 0, 0, 0, 0, 0, 0]

/-- The image of a `struct tee_iocl_supp_recv_arg` with `func = 0` and
`num_params = 2`. -/
def supp_recv_two_params_image : List Nat := [0, 0, 0, 0, 2, 0, 0, 0]

/-- The fixed-size dual-phase commands that read their struct at entry:
operation code and `sizeof` of the struct passed to `umove_or_printaddr`. -/
def dual_phase_commands : List (Nat × Nat) :=
  [(TEE_IOC_SHM_ALLOC, sizeof_tee_ioctl_shm_alloc_data),
   (TEE_IOC_SHM_REGISTER_FD, sizeof_tee_ioctl_shm_register_fd_data),
   (TEE_IOC_SHM_REGISTER, sizeof_tee_ioctl_shm_register_data)]

/-- A traced process in the given phase whose memory holds `image` at address
`4096` and nothing else. -/
def shm_tcb (entering syserror : Bool) (image : List Nat) : tcb :=
  { entering := entering, syserror := syserror, mem := mem_of image [] }

/-- The image of a `struct tee_ioctl_shm_alloc_data` with `size = 0x4000`,
`flags = 1` and `id = 3`. -/
def shm_alloc_image : List Nat :=
  [0, 0x40, 0, 0, 0, 0, 0, 0, 1, 0, 0, 0, 3, 0, 0, 0]

/-- The image of a `struct tee_ioctl_open_session_arg` with the given
`clnt_login` (below 256), `clnt_uuid` starting with the bytes of the 32-bit
value `1000`, and `num_params = 0`. -/
def open_session_image (clnt_login : Nat) : List Nat :=
  List.replicate 16 0 ++
  [0xe8, 0x03, 0, 0] ++ List.replicate 12 0 ++
  [clnt_login, 0, 0, 0] ++ List.replicate 20 0

/-! ## Text emitted by the decoder itself -/

/-- The number of occurrences of the character `c` in the literal text the
decoder itself emits (the `lit` events); the text produced by the formatting
helpers for the other events is not the decoder's own. -/
def lit_count (c : Char) : List Out → Nat
  | [] => 0
  | Out.lit s :: rest => s.toList.count c + lit_count c rest
  | _ :: rest => lit_count c rest

/-- The opening curly brackets of the decoder's own text. -/
def open_brackets (out : List Out) : Nat := lit_count (Char.ofNat 0x7b) out

/-- The closing curly brackets of the decoder's own text. -/
def close_brackets (out : List Out) : Nat := lit_count (Char.ofNat 0x7d) out

/-- Modelled from the spec: the two observation points of one call (the caller
is not in this file): the decoder runs on the entry-time state, and, when it
returned the continue value `0`, again on the exit-time state; the text of the
call is what it emitted at both. -/
def entry_then_exit (decoder : tcb → Nat → Result) (at_entry at_exit : tcb) (arg : Nat) :
    List Out :=
  if (decoder at_entry arg).rval = 0 then
    (decoder at_entry arg).out ++ (decoder at_exit arg).out
  else
    (decoder at_entry arg).out

/-- Two traced processes hold the same contents at every address of every read
of `reads` (the same byte, or both nothing). -/
def mem_agree_on (tcp1 tcp2 : tcb) (reads : List (Nat × Nat)) : Prop :=
  ∀ r ∈ reads, ∀ i, i < r.2 → tcp1.mem (r.1 + i) = tcp2.mem (r.1 + i)

/-! ## Auxiliary facts -/

theorem le_bytes_lt (bs : List Nat) : le_bytes bs < 256 ^ bs.length := by
  induction bs with
  | nil => simp [le_bytes]
  | cons b bs ih =>
    have hb : b % 256 < 256 := Nat.mod_lt _ (by decide)
    simp only [le_bytes, List.length_cons, pow_succ]
    omega

theorem field_lt (bs : List Nat) (off len : Nat) : field bs off len < 256 ^ len := by
  unfold field
  have h := le_bytes_lt ((bs.drop off).take len)
  have hl : ((bs.drop off).take len).length ≤ len := by simp
  exact lt_of_lt_of_le h (Nat.pow_le_pow_right (by decide) hl)

theorem field4_lt (bs : List Nat) (off : Nat) : field bs off 4 < 4294967296 := by
  have h := field_lt bs off 4
  norm_num at h
  exact h

/-- The entry-phase size comparison of `tee_fetch_buf_data`, done in `size_t`
arithmetic, agrees with the comparison over the naturals once the header bounds
hold. -/
theorem size_check_exact (S np len : Nat) (hnp : np < 4294967296) (hS : S ≤ len)
    (hlen : len ≤ TEE_MAX_ARG_SIZE) :
    (S + TEE_IOCTL_PARAM_SIZE np) % 2 ^ 64 = len ↔ S + 32 * np = len := by
  unfold TEE_IOCTL_PARAM_SIZE sizeof_tee_ioctl_param
  unfold TEE_MAX_ARG_SIZE at hlen
  norm_num
  omega

theorem tee_ioctl_open_session (tcp : tcb) (arg : Nat) :
    tee_ioctl tcp TEE_IOC_OPEN_SESSION arg = tee_open_session tcp arg := rfl

theorem tee_ioctl_invoke (tcp : tcb) (arg : Nat) :
    tee_ioctl tcp TEE_IOC_INVOKE arg = tee_invoke tcp arg := rfl

theorem tee_ioctl_suppl_recv (tcp : tcb) (arg : Nat) :
    tee_ioctl tcp TEE_IOC_SUPPL_RECV arg = tee_suppl_recv tcp arg := rfl

theorem tee_ioctl_suppl_send (tcp : tcb) (arg : Nat) :
    tee_ioctl tcp TEE_IOC_SUPPL_SEND arg = tee_suppl_send tcp arg := rfl

/-- On exit, `tee_fetch_buf_data` succeeds as soon as the header is readable and
in bounds and the command struct is readable. -/
theorem fetch_exit_ok (tcp : tcb) (arg S off : Nat) (hb sb : List Nat)
    (hexit : tcp.entering = false)
    (hread : umoven tcp arg sizeof_tee_ioctl_buf_data = some hb)
    (hlo : S ≤ (tee_ioctl_buf_data.ofBytes hb).buf_len)
    (hhi : (tee_ioctl_buf_data.ofBytes hb).buf_len ≤ TEE_MAX_ARG_SIZE)
    (hstruct : umoven tcp (tee_ioctl_buf_data.ofBytes hb).buf_ptr S = some sb) :
    tee_fetch_buf_data tcp arg S off =
      { rval := 0, out := [],
        reads := [(arg, sizeof_tee_ioctl_buf_data),
                  ((tee_ioctl_buf_data.ofBytes hb).buf_ptr, S)],
        buf := tee_ioctl_buf_data.ofBytes hb, arg_struct := sb,
        num_params := field sb off 4,
        params := if field sb off 4 ≠ 0 then
          ((tee_ioctl_buf_data.ofBytes hb).buf_ptr + S) % 2 ^ 64 else 0 } := by
  unfold tee_fetch_buf_data umove_or_printaddr
  simp only [hread]
  have h1 : ¬ ((tee_ioctl_buf_data.ofBytes hb).buf_len > TEE_MAX_ARG_SIZE ∨
      (tee_ioctl_buf_data.ofBytes hb).buf_len < S) := by omega
  rw [if_neg h1]
  simp only [hstruct]
  simp [hexit]

/-- C3 (counterexample): `tee_invoke` at exit of a call that did not fail, header
`buf_len = 24`, struct `num_params = 1`, so `24 + 32 * 1 != 24`; the decoder does
not stop at the header: it renders the post-call fields and reads and renders
one parameter record. -/
theorem exit_size_check_counterexample :
    (sample_tcb false false 24 invoke_one_param_image).entering = false ∧
    (sample_tcb false false 24 invoke_one_param_image).syserror = false ∧
    umoven (sample_tcb false false 24 invoke_one_param_image) 4096
      sizeof_tee_ioctl_buf_data = some (hdr_image 24) ∧
    tee_ioctl_buf_data.ofBytes (hdr_image 24) = { buf_len := 24, buf_ptr := 8192 } ∧
    sizeof_tee_ioctl_invoke_arg + 32 * field invoke_one_param_image
      offsetof_invoke_num_params 4 ≠ 24 ∧
    tee_ioctl (sample_tcb false false 24 invoke_one_param_image) TEE_IOC_INVOKE 4096 ≠
      { rval := RVAL_IOCTL_DECODED,
        out := tprints " => " ++ tee_print_buf { buf_len := 24, buf_ptr := 8192 },
        reads := [(4096, 16), (8192, 24)] } ∧
    tee_ioctl (sample_tcb false false 24 invoke_one_param_image) TEE_IOC_INVOKE 4096 =
      { rval := RVAL_IOCTL_DECODED,
        out := tprints " => " ++
          PRINT_FIELD_U "\x7b" "ret" 0 ++
          PRINT_FIELD_XVAL ", " "ret_origin" 0 xlat.tee_ioctl_origins "TEEC_ORIGIN_???" ++
          tprints ", params=" ++ tprints "[" ++
          (tee_print_param_fn { attr := 1, a := 0x11, b := 0x22, c := 0x33 }).2 ++
          tprints "]" ++ tprints "\x7d\x7d",
        reads := [(4096, 16), (8192, 24), (8216, 32)] } := by
  decide


/-- C3 (amended): at exit of a call that did not fail, with a readable header,
`S <= buf_len <= TEE_MAX_ARG_SIZE` and a readable command struct, OpenSession,
Invoke and SupplSend apply no arithmetic check: whether or not
`S + 32 * num_params == buf_len`, the decoder renders the post-call fields and
hands the exit-time `num_params` and the parameter base address to the
parameter decoder. -/
theorem exit_no_size_check (tcp : tcb) (arg : Nat) (hb : List Nat)
    (hexit : tcp.entering = false) (hok : tcp.syserror = false)
    (hread : umoven tcp arg sizeof_tee_ioctl_buf_data = some hb)
    (hhi : (tee_ioctl_buf_data.ofBytes hb).buf_len ≤ TEE_MAX_ARG_SIZE) :
    (∀ sb, sizeof_tee_ioctl_open_session_arg ≤ (tee_ioctl_buf_data.ofBytes hb).buf_len →
      umoven tcp (tee_ioctl_buf_data.ofBytes hb).buf_ptr
        sizeof_tee_ioctl_open_session_arg = some sb →
      tee_open_session tcp arg =
        { rval := RVAL_IOCTL_DECODED,
          out := tprints " => " ++
            PRINT_FIELD_SESSION "\x7b" "session" (field sb 40 4) ++
            PRINT_FIELD_U ", " "ret" (field sb 44 4) ++
            PRINT_FIELD_XVAL ", " "ret_origin" (field sb 48 4)
              xlat.tee_ioctl_origins "TEEC_ORIGIN_???" ++
            (tee_print_params tcp
              (if field sb 52 4 ≠ 0 then
                ((tee_ioctl_buf_data.ofBytes hb).buf_ptr +
                  sizeof_tee_ioctl_open_session_arg) % 2 ^ 64 else 0)
              (field sb 52 4)).1 ++
            tprints "\x7d\x7d",
          reads := [(arg, sizeof_tee_ioctl_buf_data),
              ((tee_ioctl_buf_data.ofBytes hb).buf_ptr, sizeof_tee_ioctl_open_session_arg)] ++
            (tee_print_params tcp
              (if field sb 52 4 ≠ 0 then
                ((tee_ioctl_buf_data.ofBytes hb).buf_ptr +
                  sizeof_tee_ioctl_open_session_arg) % 2 ^ 64 else 0)
              (field sb 52 4)).2 }) ∧
    (∀ sb, sizeof_tee_ioctl_invoke_arg ≤ (tee_ioctl_buf_data.ofBytes hb).buf_len →
      umoven tcp (tee_ioctl_buf_data.ofBytes hb).buf_ptr
        sizeof_tee_ioctl_invoke_arg = some sb →
      tee_invoke tcp arg =
        { rval := RVAL_IOCTL_DECODED,
          out := tprints " => " ++
            PRINT_FIELD_U "\x7b" "ret" (field sb 12 4) ++
            PRINT_FIELD_XVAL ", " "ret_origin" (field sb 16 4)
              xlat.tee_ioctl_origins "TEEC_ORIGIN_???" ++
            (tee_print_params tcp
              (if field sb 20 4 ≠ 0 then
                ((tee_ioctl_buf_data.ofBytes hb).buf_ptr +
                  sizeof_tee_ioctl_invoke_arg) % 2 ^ 64 else 0)
              (field sb 20 4)).1 ++
            tprints "\x7d\x7d",
          reads := [(arg, sizeof_tee_ioctl_buf_data),
              ((tee_ioctl_buf_data.ofBytes hb).buf_ptr, sizeof_tee_ioctl_invoke_arg)] ++
            (tee_print_params tcp
              (if field sb 20 4 ≠ 0 then
                ((tee_ioctl_buf_data.ofBytes hb).buf_ptr +
                  sizeof_tee_ioctl_invoke_arg) % 2 ^ 64 else 0)
              (field sb 20 4)).2 }) ∧
    (∀ sb, sizeof_tee_iocl_supp_send_arg ≤ (tee_ioctl_buf_data.ofBytes hb).buf_len →
      umoven tcp (tee_ioctl_buf_data.ofBytes hb).buf_ptr
        sizeof_tee_iocl_supp_send_arg = some sb →
      tee_suppl_send tcp arg =
        { rval := RVAL_IOCTL_DECODED,
          out := tprints " => " ++
            PRINT_FIELD_U "\x7b" "ret" (field sb 0 4) ++
            (tee_print_params tcp
              (if field sb 4 4 ≠ 0 then
                ((tee_ioctl_buf_data.ofBytes hb).buf_ptr +
                  sizeof_tee_iocl_supp_send_arg) % 2 ^ 64 else 0)
              (field sb 4 4)).1 ++
            tprints "\x7d\x7d",
          reads := [(arg, sizeof_tee_ioctl_buf_data),
              ((tee_ioctl_buf_data.ofBytes hb).buf_ptr, sizeof_tee_iocl_supp_send_arg)] ++
            (tee_print_params tcp
              (if field sb 4 4 ≠ 0 then
                ((tee_ioctl_buf_data.ofBytes hb).buf_ptr +
                  sizeof_tee_iocl_supp_send_arg) % 2 ^ 64 else 0)
              (field sb 4 4)).2 }) := by
  refine ⟨?_, ?_, ?_⟩
  · intro sb hlo hstruct
    have hf := fetch_exit_ok tcp arg _ offsetof_open_session_num_params hb sb hexit hread
      hlo hhi hstruct
    simp only [tee_open_session, hexit, hok, hf]
    simp [offsetof_open_session_num_params]
  · intro sb hlo hstruct
    have hf := fetch_exit_ok tcp arg _ offsetof_invoke_num_params hb sb hexit hread
      hlo hhi hstruct
    simp only [tee_invoke, hexit, hok, hf]
    simp [offsetof_invoke_num_params]
  · intro sb hlo hstruct
    have hf := fetch_exit_ok tcp arg _ offsetof_supp_send_num_params hb sb hexit hread
      hlo hhi hstruct
    simp only [tee_suppl_send, hexit, hok, hf]
    simp [offsetof_supp_send_num_params]

theorem exit_no_size_check_witness :
    ((sample_tcb false false 24 invoke_one_param_image).entering = false ∧
      (sample_tcb false false 24 invoke_one_param_image).syserror = false ∧
      umoven (sample_tcb false false 24 invoke_one_param_image) 4096
        sizeof_tee_ioctl_buf_data = some (hdr_image 24) ∧
      (tee_ioctl_buf_data.ofBytes (hdr_image 24)).buf_len ≤ TEE_MAX_ARG_SIZE ∧
      sizeof_tee_ioctl_invoke_arg ≤ (tee_ioctl_buf_data.ofBytes (hdr_image 24)).buf_len ∧
      umoven (sample_tcb false false 24 invoke_one_param_image)
        (tee_ioctl_buf_data.ofBytes (hdr_image 24)).buf_ptr sizeof_tee_ioctl_invoke_arg
          = some (invoke_one_param_image.take 24)) ∧
    (tee_invoke (sample_tcb false false 24 invoke_one_param_image) 4096).reads =
      [(4096, 16), (8192, 24), (8216, 32)] :=
  ⟨⟨by decide, by decide, by decide, by decide, by decide, by decide⟩,
   by
    have h := (exit_no_size_check (sample_tcb false false 24 invoke_one_param_image) 4096
      (hdr_image 24) (by decide) (by decide) (by decide) (by decide)).2.1
      (invoke_one_param_image.take 24) (by decide) (by decide)
    rw [h]
    decide⟩

/-- C4: SupplRecv at exit of a call that did not fail, with a readable header,
`S <= buf_len <= TEE_MAX_ARG_SIZE` and a readable struct (`S = 8`): validation
succeeds whatever the exit-time `num_params` is (no relation to `buf_len` is
required), the rendering shows the exit-time `num_params`, and exactly that many
32-byte parameter records are fetched and rendered, starting at `buf_ptr + S`
(in 64-bit arithmetic). -/
theorem suppl_recv_exit_tolerant (tcp : tcb) (arg : Nat) (hb sb : List Nat)
    (hexit : tcp.entering = false) (hok : tcp.syserror = false)
    (hread : umoven tcp arg sizeof_tee_ioctl_buf_data = some hb)
    (hlo : sizeof_tee_iocl_supp_recv_arg ≤ (tee_ioctl_buf_data.ofBytes hb).buf_len)
    (hhi : (tee_ioctl_buf_data.ofBytes hb).buf_len ≤ TEE_MAX_ARG_SIZE)
    (hstruct : umoven tcp (tee_ioctl_buf_data.ofBytes hb).buf_ptr
      sizeof_tee_iocl_supp_recv_arg = some sb) :
    (tee_fetch_buf_data tcp arg sizeof_tee_iocl_supp_recv_arg
      offsetof_supp_recv_num_params).rval = 0 ∧
    tee_suppl_recv tcp arg =
      { rval := RVAL_IOCTL_DECODED,
        out := tprints " => " ++
          PRINT_FIELD_U "\x7b" "num_params" (field sb offsetof_supp_recv_num_params 4) ++
          tprints ", params=" ++ tprints "[" ++
          ((List.range (field sb offsetof_supp_recv_num_params 4)).map
            (print_array_elem tcp
              (((tee_ioctl_buf_data.ofBytes hb).buf_ptr + sizeof_tee_iocl_supp_recv_arg)
                % 2 ^ 64)
              sizeof_tee_ioctl_param
              (fun elem_buf => tee_print_param_fn (tee_ioctl_param.ofBytes elem_buf)))).flatten ++
          tprints "]" ++ tprints "\x7d\x7d",
        reads := [(arg, sizeof_tee_ioctl_buf_data),
            ((tee_ioctl_buf_data.ofBytes hb).buf_ptr, sizeof_tee_iocl_supp_recv_arg)] ++
          (List.range (field sb offsetof_supp_recv_num_params 4)).map
            (fun idx =>
              (((tee_ioctl_buf_data.ofBytes hb).buf_ptr + sizeof_tee_iocl_supp_recv_arg)
                % 2 ^ 64 + idx * sizeof_tee_ioctl_param, sizeof_tee_ioctl_param)) } := by
  have hf := fetch_exit_ok tcp arg _ offsetof_supp_recv_num_params hb sb hexit hread
    hlo hhi hstruct
  refine ⟨by rw [hf], ?_⟩
  simp only [tee_suppl_recv, hexit, hok, hf]
  by_cases hnp : field sb offsetof_supp_recv_num_params 4 = 0
  · simp [offsetof_supp_recv_num_params] at hnp
    simp [offsetof_supp_recv_num_params, hnp, tee_print_params, print_array]
  · simp [offsetof_supp_recv_num_params] at hnp
    simp [offsetof_supp_recv_num_params, hnp, tee_print_params, print_array]

theorem suppl_recv_exit_tolerant_witness :
    ((sample_tcb false false 8 supp_recv_two_params_image).entering = false ∧
      (sample_tcb false false 8 supp_recv_two_params_image).syserror = false ∧
      umoven (sample_tcb false false 8 supp_recv_two_params_image) 4096
        sizeof_tee_ioctl_buf_data = some (hdr_image 8) ∧
      sizeof_tee_iocl_supp_recv_arg ≤ (tee_ioctl_buf_data.ofBytes (hdr_image 8)).buf_len ∧
      (tee_ioctl_buf_data.ofBytes (hdr_image 8)).buf_len ≤ TEE_MAX_ARG_SIZE ∧
      umoven (sample_tcb false false 8 supp_recv_two_params_image)
        (tee_ioctl_buf_data.ofBytes (hdr_image 8)).buf_ptr sizeof_tee_iocl_supp_recv_arg
          = some supp_recv_two_params_image) ∧
    (tee_suppl_recv (sample_tcb false false 8 supp_recv_two_params_image) 4096).reads =
      [(4096, 16), (8192, 8), (8200, 32), (8232, 32)] :=
  ⟨⟨by decide, by decide, by decide, by decide, by decide, by decide⟩,
   by
    rw [(suppl_recv_exit_tolerant (sample_tcb false false 8 supp_recv_two_params_image) 4096
      (hdr_image 8) supp_recv_two_params_image (by decide) (by decide) (by decide)
      (by decide) (by decide) (by decide)).2]
    decide⟩

/-- C5 (failing input): a record with `attr = MEMREF_INPUT | META` (`0x105`),
`a = 0x1000`, `b = 0x20`, `c = 7`.  Its base tag is `MEMREF_INPUT`, the name
lookup is given `MEMREF_INPUT` and the META marker is printed, but the `switch`
on the unmasked `attr` takes the default branch: the generic fields `a`, `b`,
`c` are rendered, not `shm_offs`, `size`, `shm_id`. -/
theorem memref_with_meta_renders_generic :
    (0x105 &&& (0xFFFFFFFF ^^^ TEE_IOCTL_PARAM_ATTR_META)
      = TEE_IOCTL_PARAM_ATTR_TYPE_MEMREF_INPUT) ∧
    (tee_print_param_fn { attr := 0x105, a := 0x1000, b := 0x20, c := 7 }).2 =
      tprints "\x7battr=" ++
      printxval xlat.tee_ioctl_param_attr_types TEE_IOCTL_PARAM_ATTR_TYPE_MEMREF_INPUT
        "TEE_IOCTL_PARAM_ATTR_" ++
      tprints "|TEE_IOCTL_PARAM_ATTR_META" ++
      PRINT_FIELD_X ", " "a" 0x1000 ++
      PRINT_FIELD_X ", " "b" 0x20 ++
      PRINT_FIELD_X ", " "c" 7 ++
      tprints "\x7d" ∧
    (tee_print_param_fn { attr := 0x5, a := 0x1000, b := 0x20, c := 7 }).2 =
      tprints "\x7battr=" ++
      printxval xlat.tee_ioctl_param_attr_types TEE_IOCTL_PARAM_ATTR_TYPE_MEMREF_INPUT
        "TEE_IOCTL_PARAM_ATTR_" ++
      [Out.lit ", shm_offs=", Out.x 0x1000, Out.lit ", size=", Out.x 0x20,
       Out.lit ", shm_id=", Out.u 7] ++
      tprints "\x7d" := by
  decide

/-- C6 (counterexample): a record with `attr = NONE` (base tag `NONE`, not a
MEMREF type): the `switch` takes `case TEE_IOCTL_PARAM_ATTR_TYPE_NONE: break`,
and no field `a`, `b` or `c` is rendered. -/
theorem none_renders_no_fields :
    (TEE_IOCTL_PARAM_ATTR_TYPE_NONE &&& (0xFFFFFFFF ^^^ TEE_IOCTL_PARAM_ATTR_META)
      = TEE_IOCTL_PARAM_ATTR_TYPE_NONE) ∧
    (tee_print_param_fn
      { attr := TEE_IOCTL_PARAM_ATTR_TYPE_NONE, a := 0x1000, b := 0x20, c := 7 }).2 =
      tprints "\x7battr=" ++
      printxval xlat.tee_ioctl_param_attr_types TEE_IOCTL_PARAM_ATTR_TYPE_NONE
        "TEE_IOCTL_PARAM_ATTR_" ++
      tprints "\x7d" ∧
    ¬ (PRINT_FIELD_X ", " "a" 0x1000 <:+: (tee_print_param_fn
      { attr := TEE_IOCTL_PARAM_ATTR_TYPE_NONE, a := 0x1000, b := 0x20, c := 7 }).2) := by
  decide

/-- C6 (amended): a record whose base tag (`attr` with the META bit cleared) is
neither NONE nor one of the three MEMREF types (so VALUE_INPUT, VALUE_OUTPUT,
VALUE_INOUT or an unrecognized value) is rendered with the three generic fields
`a`, `b`, `c` in hex, whether or not the META bit is set; a record whose `attr`
is exactly NONE is rendered with no `a`, `b`, `c` fields. -/
theorem value_or_unknown_renders_generic (param : tee_ioctl_param) :
    (param.attr &&& (0xFFFFFFFF ^^^ TEE_IOCTL_PARAM_ATTR_META)
        ∉ [TEE_IOCTL_PARAM_ATTR_TYPE_NONE, TEE_IOCTL_PARAM_ATTR_TYPE_MEMREF_INPUT,
           TEE_IOCTL_PARAM_ATTR_TYPE_MEMREF_OUTPUT, TEE_IOCTL_PARAM_ATTR_TYPE_MEMREF_INOUT] →
      (tee_print_param_fn param).2 =
        tprints "\x7battr=" ++
        printxval xlat.tee_ioctl_param_attr_types
          (param.attr &&& (0xFFFFFFFF ^^^ TEE_IOCTL_PARAM_ATTR_META))
          "TEE_IOCTL_PARAM_ATTR_" ++
        (if param.attr &&& TEE_IOCTL_PARAM_ATTR_META ≠ 0 then
          tprints "|TEE_IOCTL_PARAM_ATTR_META" else []) ++
        PRINT_FIELD_X ", " "a" param.a ++
        PRINT_FIELD_X ", " "b" param.b ++
        PRINT_FIELD_X ", " "c" param.c ++
        tprints "\x7d") ∧
    (param.attr = TEE_IOCTL_PARAM_ATTR_TYPE_NONE →
      (tee_print_param_fn param).2 =
        tprints "\x7battr=" ++
        printxval xlat.tee_ioctl_param_attr_types TEE_IOCTL_PARAM_ATTR_TYPE_NONE
          "TEE_IOCTL_PARAM_ATTR_" ++
        tprints "\x7d") := by
  constructor
  · intro hbase
    have h0 : param.attr ≠ TEE_IOCTL_PARAM_ATTR_TYPE_NONE := by
      intro h; rw [h] at hbase; exact hbase (by decide)
    have h1 : ¬ (param.attr = TEE_IOCTL_PARAM_ATTR_TYPE_MEMREF_INPUT ∨
        param.attr = TEE_IOCTL_PARAM_ATTR_TYPE_MEMREF_INOUT ∨
        param.attr = TEE_IOCTL_PARAM_ATTR_TYPE_MEMREF_OUTPUT) := by
      rintro (h | h | h) <;> rw [h] at hbase <;> exact hbase (by decide)
    simp only [tee_print_param_fn, if_neg h0, if_neg h1, List.append_assoc]
  · intro h
    simp only [tee_print_param_fn, h]
    rfl

theorem value_or_unknown_renders_generic_witness :
    ((0x103 &&& (0xFFFFFFFF ^^^ TEE_IOCTL_PARAM_ATTR_META)
        ∉ [TEE_IOCTL_PARAM_ATTR_TYPE_NONE, TEE_IOCTL_PARAM_ATTR_TYPE_MEMREF_INPUT,
           TEE_IOCTL_PARAM_ATTR_TYPE_MEMREF_OUTPUT, TEE_IOCTL_PARAM_ATTR_TYPE_MEMREF_INOUT]) ∧
      (0 : Nat) = TEE_IOCTL_PARAM_ATTR_TYPE_NONE) ∧
    (tee_print_param_fn { attr := 0x103, a := 1, b := 2, c := 3 }).2 =
      tprints "\x7battr=" ++
      printxval xlat.tee_ioctl_param_attr_types TEE_IOCTL_PARAM_ATTR_TYPE_VALUE_INOUT
        "TEE_IOCTL_PARAM_ATTR_" ++
      tprints "|TEE_IOCTL_PARAM_ATTR_META" ++
      PRINT_FIELD_X ", " "a" 1 ++ PRINT_FIELD_X ", " "b" 2 ++ PRINT_FIELD_X ", " "c" 3 ++
      tprints "\x7d" ∧
    (tee_print_param_fn { attr := 0, a := 1, b := 2, c := 3 }).2 =
      tprints "\x7battr=" ++
      printxval xlat.tee_ioctl_param_attr_types TEE_IOCTL_PARAM_ATTR_TYPE_NONE
        "TEE_IOCTL_PARAM_ATTR_" ++
      tprints "\x7d" :=
  ⟨⟨by decide, by decide⟩,
   (value_or_unknown_renders_generic { attr := 0x103, a := 1, b := 2, c := 3 }).1 (by decide),
   (value_or_unknown_renders_generic { attr := 0, a := 1, b := 2, c := 3 }).2 (by decide)⟩

/-- C7: for every parameter record, the rendering starts with `{attr=` and the
symbolic name lookup, which is given `attr` with the META bit cleared whatever
the base tag is; the META marker `|TEE_IOCTL_PARAM_ATTR_META` follows it if and
only if the META bit is set in `attr`, and appears nowhere else. -/
theorem meta_marker_iff_meta_bit (param : tee_ioctl_param) :
    (∃ rest, Out.lit "|TEE_IOCTL_PARAM_ATTR_META" ∉ rest ∧
      (∀ t v dflt, Out.xval t v dflt ∉ rest) ∧
      (tee_print_param_fn param).2 =
        tprints "\x7battr=" ++
        printxval xlat.tee_ioctl_param_attr_types
          (param.attr &&& (0xFFFFFFFF ^^^ TEE_IOCTL_PARAM_ATTR_META))
          "TEE_IOCTL_PARAM_ATTR_" ++
        (if param.attr &&& TEE_IOCTL_PARAM_ATTR_META ≠ 0 then
          tprints "|TEE_IOCTL_PARAM_ATTR_META" else []) ++
        rest) ∧
    (Out.lit "|TEE_IOCTL_PARAM_ATTR_META" ∈ (tee_print_param_fn param).2 ↔
      param.attr &&& TEE_IOCTL_PARAM_ATTR_META ≠ 0) := by
  by_cases h0 : param.attr = TEE_IOCTL_PARAM_ATTR_TYPE_NONE
  · by_cases hm : param.attr &&& TEE_IOCTL_PARAM_ATTR_META = 0
    · refine ⟨⟨tprints "\x7d", by decide, by simp [tprints], ?_⟩, ?_⟩
      · simp [tee_print_param_fn, h0, hm]
      · simp [tee_print_param_fn, h0, hm, tprints, printxval]
    · refine ⟨⟨tprints "\x7d", by decide, by simp [tprints], ?_⟩, ?_⟩
      · simp [tee_print_param_fn, h0, hm]
      · simp [tee_print_param_fn, h0, hm, tprints, printxval]
  · by_cases h1 : param.attr = TEE_IOCTL_PARAM_ATTR_TYPE_MEMREF_INPUT ∨
        param.attr = TEE_IOCTL_PARAM_ATTR_TYPE_MEMREF_INOUT ∨
        param.attr = TEE_IOCTL_PARAM_ATTR_TYPE_MEMREF_OUTPUT
    · by_cases hm : param.attr &&& TEE_IOCTL_PARAM_ATTR_META = 0
      · refine ⟨⟨[Out.lit ", shm_offs=", Out.x param.a, Out.lit ", size=", Out.x param.b,
          Out.lit ", shm_id=", Out.u param.c, Out.lit "\x7d"], by simp, by simp, ?_⟩, ?_⟩
        · simp [tee_print_param_fn, h0, h1, hm, tprints]
        · simp [tee_print_param_fn, h0, h1, hm, tprints, printxval]
      · refine ⟨⟨[Out.lit ", shm_offs=", Out.x param.a, Out.lit ", size=", Out.x param.b,
          Out.lit ", shm_id=", Out.u param.c, Out.lit "\x7d"], by simp, by simp, ?_⟩, ?_⟩
        · simp [tee_print_param_fn, h0, h1, hm, tprints]
        · simp [tee_print_param_fn, h0, h1, hm, tprints, printxval]
    · by_cases hm : param.attr &&& TEE_IOCTL_PARAM_ATTR_META = 0
      · refine ⟨⟨PRINT_FIELD_X ", " "a" param.a ++ PRINT_FIELD_X ", " "b" param.b ++
          PRINT_FIELD_X ", " "c" param.c ++ tprints "\x7d",
          by simp [PRINT_FIELD_X, tprints], by simp [PRINT_FIELD_X, tprints], ?_⟩, ?_⟩
        · simp [tee_print_param_fn, h0, h1, hm, tprints]
        · simp [tee_print_param_fn, h0, h1, hm, tprints, printxval, PRINT_FIELD_X]
      · refine ⟨⟨PRINT_FIELD_X ", " "a" param.a ++ PRINT_FIELD_X ", " "b" param.b ++
          PRINT_FIELD_X ", " "c" param.c ++ tprints "\x7d",
          by simp [PRINT_FIELD_X, tprints], by simp [PRINT_FIELD_X, tprints], ?_⟩, ?_⟩
        · simp [tee_print_param_fn, h0, h1, hm, tprints]
        · simp [tee_print_param_fn, h0, h1, hm, tprints, printxval, PRINT_FIELD_X]

/-- The five ways through `tee_fetch_buf_data`, each with the result it leaves. -/
theorem fetch_cases (tcp : tcb) (arg S off : Nat) :
    (umoven tcp arg sizeof_tee_ioctl_buf_data = none ∧
      tee_fetch_buf_data tcp arg S off =
        { rval := RVAL_IOCTL_DECODED, out := printaddr arg,
          reads := [(arg, sizeof_tee_ioctl_buf_data)],
          buf := ⟨0, 0⟩, arg_struct := [], num_params := 0, params := 0 }) ∨
    (∃ hb, umoven tcp arg sizeof_tee_ioctl_buf_data = some hb ∧
      ((tee_ioctl_buf_data.ofBytes hb).buf_len > TEE_MAX_ARG_SIZE ∨
        (tee_ioctl_buf_data.ofBytes hb).buf_len < S) ∧
      tee_fetch_buf_data tcp arg S off =
        { rval := RVAL_IOCTL_DECODED, out := tee_print_buf (tee_ioctl_buf_data.ofBytes hb),
          reads := [(arg, sizeof_tee_ioctl_buf_data)],
          buf := tee_ioctl_buf_data.ofBytes hb, arg_struct := [], num_params := 0,
          params := 0 }) ∨
    (∃ hb, umoven tcp arg sizeof_tee_ioctl_buf_data = some hb ∧
      S ≤ (tee_ioctl_buf_data.ofBytes hb).buf_len ∧
      (tee_ioctl_buf_data.ofBytes hb).buf_len ≤ TEE_MAX_ARG_SIZE ∧
      umoven tcp (tee_ioctl_buf_data.ofBytes hb).buf_ptr S = none ∧
      tee_fetch_buf_data tcp arg S off =
        { rval := RVAL_IOCTL_DECODED, out := tee_print_buf (tee_ioctl_buf_data.ofBytes hb),
          reads := [(arg, sizeof_tee_ioctl_buf_data),
                    ((tee_ioctl_buf_data.ofBytes hb).buf_ptr, S)],
          buf := tee_ioctl_buf_data.ofBytes hb, arg_struct := [], num_params := 0,
          params := 0 }) ∨
    (∃ hb sb, umoven tcp arg sizeof_tee_ioctl_buf_data = some hb ∧
      S ≤ (tee_ioctl_buf_data.ofBytes hb).buf_len ∧
      (tee_ioctl_buf_data.ofBytes hb).buf_len ≤ TEE_MAX_ARG_SIZE ∧
      umoven tcp (tee_ioctl_buf_data.ofBytes hb).buf_ptr S = some sb ∧
      tcp.entering = true ∧
      S + 32 * field sb off 4 ≠ (tee_ioctl_buf_data.ofBytes hb).buf_len ∧
      tee_fetch_buf_data tcp arg S off =
        { rval := RVAL_IOCTL_DECODED, out := tee_print_buf (tee_ioctl_buf_data.ofBytes hb),
          reads := [(arg, sizeof_tee_ioctl_buf_data),
                    ((tee_ioctl_buf_data.ofBytes hb).buf_ptr, S)],
          buf := tee_ioctl_buf_data.ofBytes hb, arg_struct := sb,
          num_params := field sb off 4, params := 0 }) ∨
    (∃ hb sb, umoven tcp arg sizeof_tee_ioctl_buf_data = some hb ∧
      S ≤ (tee_ioctl_buf_data.ofBytes hb).buf_len ∧
      (tee_ioctl_buf_data.ofBytes hb).buf_len ≤ TEE_MAX_ARG_SIZE ∧
      umoven tcp (tee_ioctl_buf_data.ofBytes hb).buf_ptr S = some sb ∧
      (tcp.entering = false ∨
        S + 32 * field sb off 4 = (tee_ioctl_buf_data.ofBytes hb).buf_len) ∧
      tee_fetch_buf_data tcp arg S off =
        { rval := 0, out := [],
          reads := [(arg, sizeof_tee_ioctl_buf_data),
                    ((tee_ioctl_buf_data.ofBytes hb).buf_ptr, S)],
          buf := tee_ioctl_buf_data.ofBytes hb, arg_struct := sb,
          num_params := field sb off 4,
          params := if field sb off 4 ≠ 0 then
            ((tee_ioctl_buf_data.ofBytes hb).buf_ptr + S) % 2 ^ 64 else 0 }) := by
  unfold tee_fetch_buf_data umove_or_printaddr
  cases hread : umoven tcp arg sizeof_tee_ioctl_buf_data with
  | none => left; simp
  | some hb =>
    right
    simp only []
    by_cases h1 : (tee_ioctl_buf_data.ofBytes hb).buf_len > TEE_MAX_ARG_SIZE ∨
        (tee_ioctl_buf_data.ofBytes hb).buf_len < S
    · left
      rw [if_pos h1]
      exact ⟨hb, rfl, h1, by simp⟩
    · right
      rw [if_neg h1]
      have hlo : S ≤ (tee_ioctl_buf_data.ofBytes hb).buf_len := by omega
      have hhi : (tee_ioctl_buf_data.ofBytes hb).buf_len ≤ TEE_MAX_ARG_SIZE := by omega
      cases hstruct : umoven tcp (tee_ioctl_buf_data.ofBytes hb).buf_ptr S with
      | none =>
        left
        exact ⟨hb, rfl, hlo, hhi, hstruct, by simp⟩
      | some sb =>
        right
        simp only []
        have hex := size_check_exact S _ _ (field4_lt sb off) hlo hhi
        by_cases h2 : tcp.entering = true ∧
            (S + TEE_IOCTL_PARAM_SIZE (field sb off 4)) % 2 ^ 64 ≠
              (tee_ioctl_buf_data.ofBytes hb).buf_len
        · left
          rw [if_pos h2]
          exact ⟨hb, sb, rfl, hlo, hhi, hstruct, h2.1, fun h => h2.2 (hex.mpr h), by simp⟩
        · right
          rw [if_neg h2]
          refine ⟨hb, sb, rfl, hlo, hhi, hstruct, ?_, by simp⟩
          by_cases hent : tcp.entering = true
          · right
            by_contra hc
            exact h2 ⟨hent, fun h => hc (hex.mp h)⟩
          · left
            simpa using hent

/-- C8 (counterexample): `tee_fetch_buf_data` at exit with `S = 8`, header
`buf_len = 8` and struct `num_params = 2` succeeds and hands out the parameter
base address `buf_ptr + 8`, although `8 + 32 * 2 > 8`: the two records lie
outside the declared buffer. -/
theorem exit_region_not_justified :
    (sample_tcb false false 8 supp_recv_two_params_image).entering = false ∧
    (tee_fetch_buf_data (sample_tcb false false 8 supp_recv_two_params_image) 4096
      sizeof_tee_iocl_supp_recv_arg offsetof_supp_recv_num_params) =
      { rval := 0, out := [], reads := [(4096, 16), (8192, 8)],
        buf := { buf_len := 8, buf_ptr := 8192 },
        arg_struct := supp_recv_two_params_image, num_params := 2, params := 8200 } ∧
    ¬ (sizeof_tee_iocl_supp_recv_arg + 32 * 2 ≤ 8) ∧
    (tee_suppl_recv (sample_tcb false false 8 supp_recv_two_params_image) 4096).reads =
      [(4096, 16), (8192, 8), (8200, 32), (8232, 32)] := by
  decide

/-- C8 (amended): whenever `tee_fetch_buf_data` succeeds, in either phase,
`S <= buf_len <= TEE_MAX_ARG_SIZE`, and a non-zero parameter count gives the
parameter base `buf_ptr + S`; in the entry phase moreover
`S + 32 * num_params = buf_len`, so the parameter region
`[buf_ptr + S, buf_ptr + S + 32 * num_params)` lies inside the declared buffer
`[buf_ptr, buf_ptr + buf_len)`. -/
theorem fetch_success_bounds (tcp : tcb) (arg S off : Nat)
    (hsucc : (tee_fetch_buf_data tcp arg S off).rval = 0) :
    (S ≤ (tee_fetch_buf_data tcp arg S off).buf.buf_len ∧
      (tee_fetch_buf_data tcp arg S off).buf.buf_len ≤ TEE_MAX_ARG_SIZE) ∧
    ((tee_fetch_buf_data tcp arg S off).num_params ≠ 0 →
      (tee_fetch_buf_data tcp arg S off).params =
        ((tee_fetch_buf_data tcp arg S off).buf.buf_ptr + S) % 2 ^ 64) ∧
    (tcp.entering = true →
      S + 32 * (tee_fetch_buf_data tcp arg S off).num_params =
        (tee_fetch_buf_data tcp arg S off).buf.buf_len ∧
      (tee_fetch_buf_data tcp arg S off).buf.buf_ptr + S +
          32 * (tee_fetch_buf_data tcp arg S off).num_params ≤
        (tee_fetch_buf_data tcp arg S off).buf.buf_ptr +
          (tee_fetch_buf_data tcp arg S off).buf.buf_len) := by
  rcases fetch_cases tcp arg S off with ⟨_, h⟩ | ⟨hb, _, _, h⟩ | ⟨hb, _, _, _, _, h⟩ |
    ⟨hb, sb, _, _, _, _, _, _, h⟩ | ⟨hb, sb, _, hlo, hhi, _, hph, h⟩
  · rw [h] at hsucc; simp [RVAL_IOCTL_DECODED] at hsucc
  · rw [h] at hsucc; simp [RVAL_IOCTL_DECODED] at hsucc
  · rw [h] at hsucc; simp [RVAL_IOCTL_DECODED] at hsucc
  · rw [h] at hsucc; simp [RVAL_IOCTL_DECODED] at hsucc
  · rw [h]
    refine ⟨⟨hlo, hhi⟩, ?_, ?_⟩
    · intro hnp
      simp only [] at hnp
      simp [hnp]
    · intro hent
      rcases hph with hph | hph
      · rw [hent] at hph; simp at hph
      · simp only []
        omega

theorem fetch_success_bounds_witness :
    (tee_fetch_buf_data (sample_tcb true false 56 invoke_one_param_image) 4096 24 20).rval
      = 0 ∧
    (tee_fetch_buf_data (sample_tcb true false 56 invoke_one_param_image) 4096 24 20).num_params
      ≠ 0 ∧
    24 + 32 *
      (tee_fetch_buf_data (sample_tcb true false 56 invoke_one_param_image) 4096 24 20).num_params
      = (tee_fetch_buf_data (sample_tcb true false 56 invoke_one_param_image) 4096 24 20).buf.buf_len :=
  ⟨by decide, by decide,
   ((fetch_success_bounds (sample_tcb true false 56 invoke_one_param_image) 4096 24 20
      (by decide)).2.2 (by decide)).1⟩

/-- C9: for every operation code outside the ten handled by the `switch`, every
argument, phase and memory state, `tee_ioctl` returns `RVAL_DECODED`, emits no
output and reads no memory; `RVAL_DECODED` differs from `RVAL_IOCTL_DECODED` and
from the continue value `0`. -/
theorem unknown_code_not_handled (tcp : tcb) (code arg : Nat)
    (hcode : code ∉ handled_codes) :
    tee_ioctl tcp code arg = { rval := RVAL_DECODED, out := [], reads := [] } ∧
    RVAL_DECODED ≠ RVAL_IOCTL_DECODED ∧ RVAL_DECODED ≠ 0 := by
  simp only [handled_codes, List.mem_cons, List.mem_singleton, List.not_mem_nil, or_false,
    not_or] at hcode
  obtain ⟨h1, h2, h3, h4, h5, h6, h7, h8, h9, h10⟩ := hcode
  refine ⟨?_, by decide, by decide⟩
  simp only [tee_ioctl, if_neg h1, if_neg h2, if_neg h3, if_neg h4, if_neg h5, if_neg h6,
    if_neg h7, if_neg h8, if_neg h9, if_neg h10]

theorem unknown_code_not_handled_witness :
    (0x5401 ∉ handled_codes) ∧
    (tee_ioctl (sample_tcb true false 56 invoke_one_param_image) 0x5401 4096 =
        { rval := RVAL_DECODED, out := [], reads := [] } ∧
      RVAL_DECODED ≠ RVAL_IOCTL_DECODED ∧ RVAL_DECODED ≠ 0) :=
  ⟨by decide,
   unknown_code_not_handled (sample_tcb true false 56 invoke_one_param_image) 0x5401 4096
     (by decide)⟩

/-- C11: for each of the four variable-size commands, at exit of a call that
failed, the decoder emits exactly the closing bracket `}`, reads no memory (no
header fetch, no parameter decode) and returns `RVAL_IOCTL_DECODED`. -/
theorem failed_call_closes_bracket (tcp : tcb) (arg code S off : Nat)
    (hcmd : (code, S, off) ∈ variable_size_commands)
    (hexit : tcp.entering = false) (hfail : tcp.syserror = true) :
    tee_ioctl tcp code arg =
      { rval := RVAL_IOCTL_DECODED, out := tprints "\x7d", reads := [] } := by
  simp only [variable_size_commands, List.mem_cons, Prod.mk.injEq, List.mem_singleton,
    List.not_mem_nil, or_false] at hcmd
  rcases hcmd with ⟨rfl, rfl, rfl⟩ | ⟨rfl, rfl, rfl⟩ | ⟨rfl, rfl, rfl⟩ | ⟨rfl, rfl, rfl⟩
  · rw [tee_ioctl_open_session]
    simp [tee_open_session, hexit, hfail]
  · rw [tee_ioctl_invoke]
    simp [tee_invoke, hexit, hfail]
  · rw [tee_ioctl_suppl_recv]
    simp [tee_suppl_recv, hexit, hfail]
  · rw [tee_ioctl_suppl_send]
    simp [tee_suppl_send, hexit, hfail]

theorem failed_call_closes_bracket_witness :
    ((TEE_IOC_SUPPL_RECV, 8, 4) ∈ variable_size_commands ∧
      (sample_tcb false true 8 supp_recv_two_params_image).entering = false ∧
      (sample_tcb false true 8 supp_recv_two_params_image).syserror = true) ∧
    tee_ioctl (sample_tcb false true 8 supp_recv_two_params_image) TEE_IOC_SUPPL_RECV 4096 =
      { rval := RVAL_IOCTL_DECODED, out := tprints "\x7d", reads := [] } :=
  ⟨⟨by decide, by decide, by decide⟩,
   failed_call_closes_bracket (sample_tcb false true 8 supp_recv_two_params_image) 4096
     TEE_IOC_SUPPL_RECV 8 4 (by decide) (by decide) (by decide)⟩

/-- C12: for Cancel and CloseSession, for every argument, phase and memory
state, the decoder makes exactly one read attempt (the fixed struct at `arg`)
and returns `RVAL_IOCTL_DECODED`, which is not the continue value; when the read
fails the rendering after the `, ` separator is the bare pointer, with no field;
when it succeeds all fields are rendered between `{` and `}`: `cancel_id` in
decimal and `session` in hex for Cancel, `session` in hex for CloseSession. -/
theorem cancel_close_single_read (tcp : tcb) (arg : Nat) :
    ((tee_cancel tcp arg).reads = [(arg, sizeof_tee_ioctl_cancel_arg)] ∧
      (tee_cancel tcp arg).rval = RVAL_IOCTL_DECODED ∧
      (umoven tcp arg sizeof_tee_ioctl_cancel_arg = none →
        (tee_cancel tcp arg).out = [Out.lit ", ", Out.addr arg]) ∧
      (∀ cancel, umoven tcp arg sizeof_tee_ioctl_cancel_arg = some cancel →
        (tee_cancel tcp arg).out =
          [Out.lit ", ",
           Out.lit "\x7b", Out.lit "cancel_id", Out.lit "=", Out.u (field cancel 0 4),
           Out.lit ", ", Out.lit "session", Out.lit "=", Out.x (field cancel 4 4),
           Out.lit "\x7d"])) ∧
    ((tee_close_session tcp arg).reads = [(arg, sizeof_tee_ioctl_close_session_arg)] ∧
      (tee_close_session tcp arg).rval = RVAL_IOCTL_DECODED ∧
      (umoven tcp arg sizeof_tee_ioctl_close_session_arg = none →
        (tee_close_session tcp arg).out = [Out.lit ", ", Out.addr arg]) ∧
      (∀ close_session,
        umoven tcp arg sizeof_tee_ioctl_close_session_arg = some close_session →
        (tee_close_session tcp arg).out =
          [Out.lit ", ",
           Out.lit "\x7b", Out.lit "session", Out.lit "=", Out.x (field close_session 0 4),
           Out.lit "\x7d"])) ∧
    sizeof_tee_ioctl_cancel_arg = 8 ∧ sizeof_tee_ioctl_close_session_arg = 4 ∧
    RVAL_IOCTL_DECODED ≠ 0 := by
  refine ⟨?_, ?_, rfl, rfl, by decide⟩
  · unfold tee_cancel umove_or_printaddr
    cases h : umoven tcp arg sizeof_tee_ioctl_cancel_arg with
    | none => simp [tprints, printaddr]
    | some bs => simp [tprints, PRINT_FIELD_U, PRINT_FIELD_SESSION, PRINT_FIELD_X]
  · unfold tee_close_session umove_or_printaddr
    cases h : umoven tcp arg sizeof_tee_ioctl_close_session_arg with
    | none => simp [tprints, printaddr]
    | some bs => simp [tprints, PRINT_FIELD_SESSION, PRINT_FIELD_X]

theorem cancel_close_single_read_witness :
    (umoven (shm_tcb true false []) 4096 sizeof_tee_ioctl_cancel_arg = none ∧
      umoven (shm_tcb true false [7, 0, 0, 0, 9, 0, 0, 0]) 4096
        sizeof_tee_ioctl_cancel_arg = some [7, 0, 0, 0, 9, 0, 0, 0] ∧
      umoven (shm_tcb true false [9, 0, 0, 0]) 4096
        sizeof_tee_ioctl_close_session_arg = some [9, 0, 0, 0]) ∧
    (tee_cancel (shm_tcb true false []) 4096).out = [Out.lit ", ", Out.addr 4096] ∧
    (tee_cancel (shm_tcb true false [7, 0, 0, 0, 9, 0, 0, 0]) 4096).out =
      [Out.lit ", ",
       Out.lit "\x7b", Out.lit "cancel_id", Out.lit "=", Out.u 7,
       Out.lit ", ", Out.lit "session", Out.lit "=", Out.x 9,
       Out.lit "\x7d"] ∧
    (tee_close_session (shm_tcb true false [9, 0, 0, 0]) 4096).out =
      [Out.lit ", ", Out.lit "\x7b", Out.lit "session", Out.lit "=", Out.x 9,
       Out.lit "\x7d"] :=
  ⟨⟨by decide, by decide, by decide⟩,
   (cancel_close_single_read (shm_tcb true false []) 4096).1.2.2.1 (by decide),
   (cancel_close_single_read (shm_tcb true false [7, 0, 0, 0, 9, 0, 0, 0]) 4096).1.2.2.2
     [7, 0, 0, 0, 9, 0, 0, 0] (by decide),
   (cancel_close_single_read (shm_tcb true false [9, 0, 0, 0]) 4096).2.1.2.2.2
     [9, 0, 0, 0] (by decide)⟩

/-- On entry, `tee_fetch_buf_data` succeeds when the header is readable and in
bounds, the command struct is readable and the size arithmetic matches. -/
theorem fetch_entry_ok (tcp : tcb) (arg S off : Nat) (hb sb : List Nat)
    (hread : umoven tcp arg sizeof_tee_ioctl_buf_data = some hb)
    (hlo : S ≤ (tee_ioctl_buf_data.ofBytes hb).buf_len)
    (hhi : (tee_ioctl_buf_data.ofBytes hb).buf_len ≤ TEE_MAX_ARG_SIZE)
    (hstruct : umoven tcp (tee_ioctl_buf_data.ofBytes hb).buf_ptr S = some sb)
    (hsize : S + 32 * field sb off 4 = (tee_ioctl_buf_data.ofBytes hb).buf_len) :
    tee_fetch_buf_data tcp arg S off =
      { rval := 0, out := [],
        reads := [(arg, sizeof_tee_ioctl_buf_data),
                  ((tee_ioctl_buf_data.ofBytes hb).buf_ptr, S)],
        buf := tee_ioctl_buf_data.ofBytes hb, arg_struct := sb,
        num_params := field sb off 4,
        params := if field sb off 4 ≠ 0 then
          ((tee_ioctl_buf_data.ofBytes hb).buf_ptr + S) % 2 ^ 64 else 0 } := by
  unfold tee_fetch_buf_data umove_or_printaddr
  simp only [hread]
  have h1 : ¬ ((tee_ioctl_buf_data.ofBytes hb).buf_len > TEE_MAX_ARG_SIZE ∨
      (tee_ioctl_buf_data.ofBytes hb).buf_len < S) := by omega
  rw [if_neg h1]
  simp only [hstruct]
  have h2 : ¬ (tcp.entering = true ∧
      (S + TEE_IOCTL_PARAM_SIZE (field sb off 4)) % 2 ^ 64 ≠
        (tee_ioctl_buf_data.ofBytes hb).buf_len) := by
    rintro ⟨_, h⟩
    exact h ((size_check_exact S _ _ (field4_lt sb off) hlo hhi).mpr hsize)
  rw [if_neg h2]

/-- C13: in the entry rendering of OpenSession (header and struct readable and
validated), between the `clnt_login` field and the `cancel_id` field the
`clnt_uuid` bytes are rendered in exactly one of three ways chosen by
`clnt_login`: nothing for the public, user, application and user-application
logins; for the two group logins the first `sizeof(gid_t)` bytes read as a
number and handed to the uid/gid printer; for any other login value the raw
bytes as a hex array. -/
theorem open_session_clnt_uuid_rendering (tcp : tcb) (arg : Nat) (hb sb : List Nat)
    (hentry : tcp.entering = true)
    (hread : umoven tcp arg sizeof_tee_ioctl_buf_data = some hb)
    (hlo : sizeof_tee_ioctl_open_session_arg ≤ (tee_ioctl_buf_data.ofBytes hb).buf_len)
    (hhi : (tee_ioctl_buf_data.ofBytes hb).buf_len ≤ TEE_MAX_ARG_SIZE)
    (hstruct : umoven tcp (tee_ioctl_buf_data.ofBytes hb).buf_ptr
      sizeof_tee_ioctl_open_session_arg = some sb)
    (hsize : sizeof_tee_ioctl_open_session_arg + 32 * field sb 52 4 =
      (tee_ioctl_buf_data.ofBytes hb).buf_len) :
    (tee_open_session tcp arg).out =
      (tprints ", " ++
        PRINT_FIELD_U "\x7b" "buf_len" (tee_ioctl_buf_data.ofBytes hb).buf_len ++
        PRINT_FIELD_UUID ", buf_ptr=\x7b" "uuid" (sb.take 16) ++
        PRINT_FIELD_XVAL ", " "clnt_login" (field sb 32 4)
          xlat.tee_ioctl_login_types "TEE_IOCTL_LOGIN_???") ++
      (if field sb 32 4 ∈ [TEE_IOCTL_LOGIN_PUBLIC, TEE_IOCTL_LOGIN_USER,
          TEE_IOCTL_LOGIN_APPLICATION, TEE_IOCTL_LOGIN_USER_APPLICATION] then
        []
      else if field sb 32 4 ∈ [TEE_IOCTL_LOGIN_GROUP, TEE_IOCTL_LOGIN_GROUP_APPLICATION] then
        [Out.lit ", clnt_uuid=", Out.uid (field sb 16 sizeof_gid_t)]
      else
        [Out.lit ", ", Out.lit "clnt_uuid", Out.lit "=",
         Out.x_array ((sb.drop 16).take 16)]) ++
      (PRINT_FIELD_U ", " "cancel_id" (field sb 36 4) ++
        PRINT_FIELD_U ", " "num_params" (field sb 52 4) ++
        (tee_print_params tcp
          (if field sb 52 4 ≠ 0 then
            ((tee_ioctl_buf_data.ofBytes hb).buf_ptr +
              sizeof_tee_ioctl_open_session_arg) % 2 ^ 64 else 0)
          (field sb 52 4)).1 ++
        tprints "\x7d") := by
  have hf := fetch_entry_ok tcp arg _ offsetof_open_session_num_params hb sb hread
    hlo hhi hstruct hsize
  have hgid : le_bytes (((sb.drop 16).take 16).take sizeof_gid_t) = field sb 16 sizeof_gid_t := by
    simp [field, sizeof_gid_t, List.take_take]
  simp only [tee_open_session, hentry, hf, open_session_clnt_uuid, hgid]
  simp only [List.mem_cons, List.mem_singleton, List.not_mem_nil, or_false, printuid,
    PRINT_FIELD_X_ARRAY]
  simp [List.append_assoc, offsetof_open_session_num_params]


theorem open_session_clnt_uuid_rendering_witness :
    ((sample_tcb true false 56 (open_session_image 2)).entering = true ∧
      umoven (sample_tcb true false 56 (open_session_image 2)) 4096
        sizeof_tee_ioctl_buf_data = some (hdr_image 56) ∧
      sizeof_tee_ioctl_open_session_arg ≤ (tee_ioctl_buf_data.ofBytes (hdr_image 56)).buf_len ∧
      (tee_ioctl_buf_data.ofBytes (hdr_image 56)).buf_len ≤ TEE_MAX_ARG_SIZE ∧
      umoven (sample_tcb true false 56 (open_session_image 2))
        (tee_ioctl_buf_data.ofBytes (hdr_image 56)).buf_ptr
        sizeof_tee_ioctl_open_session_arg = some (open_session_image 2) ∧
      sizeof_tee_ioctl_open_session_arg + 32 * field (open_session_image 2) 52 4 =
        (tee_ioctl_buf_data.ofBytes (hdr_image 56)).buf_len) ∧
    [Out.lit ", clnt_uuid=", Out.uid 1000] <:+:
      (tee_open_session (sample_tcb true false 56 (open_session_image 2)) 4096).out :=
  ⟨⟨by decide, by decide, by decide, by decide, by decide, by decide⟩,
   by
    rw [open_session_clnt_uuid_rendering (sample_tcb true false 56 (open_session_image 2))
      4096 (hdr_image 56) (open_session_image 2) (by decide) (by decide) (by decide)
      (by decide) (by decide) (by decide)]
    decide⟩

/-- C14: for ShmAlloc with a readable argument struct: at entry the decoder
renders the input fields `size` and `flags` only (no `id`) and returns the
continue value `0`; at exit of a call that did not fail it reads the struct
again and renders the output field `id` (after `size` and `flags`) and returns
`RVAL_IOCTL_DECODED`; at exit of a failed call it renders nothing, reads nothing
and returns `RVAL_IOCTL_DECODED`, whatever the memory holds. -/
theorem shm_alloc_two_phase (tcp : tcb) (arg : Nat) :
    (∀ shm_alloc, tcp.entering = true →
      umoven tcp arg sizeof_tee_ioctl_shm_alloc_data = some shm_alloc →
      tee_shm_alloc tcp arg =
        { rval := 0,
          out := tprints ", " ++
            PRINT_FIELD_X "\x7b" "size" (field shm_alloc 0 8) ++
            PRINT_FIELD_FLAGS ", " "flags" (field shm_alloc 8 4)
              xlat.tee_ioctl_shm_flags "TEE_IOCTL_SHM_???" ++
            tprints "\x7d",
          reads := [(arg, sizeof_tee_ioctl_shm_alloc_data)] }) ∧
    (∀ shm_alloc, tcp.entering = false → tcp.syserror = false →
      umoven tcp arg sizeof_tee_ioctl_shm_alloc_data = some shm_alloc →
      tee_shm_alloc tcp arg =
        { rval := RVAL_IOCTL_DECODED,
          out := tprints " => " ++
            PRINT_FIELD_X "\x7b" "size" (field shm_alloc 0 8) ++
            PRINT_FIELD_FLAGS ", " "flags" (field shm_alloc 8 4)
              xlat.tee_ioctl_shm_flags "TEE_IOCTL_SHM_???" ++
            PRINT_FIELD_D ", " "id" (s32 (field shm_alloc 12 4)) ++
            tprints "\x7d",
          reads := [(arg, sizeof_tee_ioctl_shm_alloc_data)] }) ∧
    (tcp.entering = false → tcp.syserror = true →
      tee_shm_alloc tcp arg = { rval := RVAL_IOCTL_DECODED, out := [], reads := [] }) := by
  refine ⟨?_, ?_, ?_⟩
  · intro bs hentry hread
    simp [tee_shm_alloc, umove_or_printaddr, hentry, hread]
  · intro bs hexit hok hread
    simp [tee_shm_alloc, umove_or_printaddr, hexit, hok, hread]
  · intro hexit hfail
    simp [tee_shm_alloc, hexit, hfail]

theorem shm_alloc_two_phase_witness :
    (umoven (shm_tcb true false shm_alloc_image) 4096 sizeof_tee_ioctl_shm_alloc_data
        = some shm_alloc_image ∧
      umoven (shm_tcb false false shm_alloc_image) 4096 sizeof_tee_ioctl_shm_alloc_data
        = some shm_alloc_image) ∧
    tee_shm_alloc (shm_tcb true false shm_alloc_image) 4096 =
      { rval := 0,
        out := tprints ", " ++ PRINT_FIELD_X "\x7b" "size" 0x4000 ++
          PRINT_FIELD_FLAGS ", " "flags" 1 xlat.tee_ioctl_shm_flags "TEE_IOCTL_SHM_???" ++
          tprints "\x7d",
        reads := [(4096, 16)] } ∧
    tee_shm_alloc (shm_tcb false false shm_alloc_image) 4096 =
      { rval := RVAL_IOCTL_DECODED,
        out := tprints " => " ++ PRINT_FIELD_X "\x7b" "size" 0x4000 ++
          PRINT_FIELD_FLAGS ", " "flags" 1 xlat.tee_ioctl_shm_flags "TEE_IOCTL_SHM_???" ++
          PRINT_FIELD_D ", " "id" 3 ++
          tprints "\x7d",
        reads := [(4096, 16)] } ∧
    tee_shm_alloc (shm_tcb false true shm_alloc_image) 4096 =
      { rval := RVAL_IOCTL_DECODED, out := [], reads := [] } :=
  ⟨⟨by decide, by decide⟩,
   (shm_alloc_two_phase (shm_tcb true false shm_alloc_image) 4096).1 shm_alloc_image
     (by decide) (by decide),
   (shm_alloc_two_phase (shm_tcb false false shm_alloc_image) 4096).2.1 shm_alloc_image
     (by decide) (by decide) (by decide),
   (shm_alloc_two_phase (shm_tcb false true shm_alloc_image) 4096).2.2
     (by decide) (by decide)⟩

theorem mapM_option_congr {α β : Type} (f g : α → Option β) (l : List α)
    (h : ∀ x ∈ l, f x = g x) : l.mapM f = l.mapM g := by
  induction l with
  | nil => rfl
  | cons a l ih =>
    simp only [List.mapM_cons]
    rw [h a (List.mem_cons_self a l), ih (fun x hx => h x (List.mem_cons_of_mem a hx))]

theorem mem_agree_on_append (tcp1 tcp2 : tcb) (r1 r2 : List (Nat × Nat)) :
    mem_agree_on tcp1 tcp2 (r1 ++ r2) ↔
      mem_agree_on tcp1 tcp2 r1 ∧ mem_agree_on tcp1 tcp2 r2 := by
  unfold mem_agree_on
  constructor
  · intro h
    exact ⟨fun r hr => h r (List.mem_append_left _ hr),
      fun r hr => h r (List.mem_append_right _ hr)⟩
  · rintro ⟨h1, h2⟩ r hr
    rcases List.mem_append.mp hr with hr | hr
    · exact h1 r hr
    · exact h2 r hr

theorem umoven_congr (tcp1 tcp2 : tcb) (addr len : Nat) (rest : List (Nat × Nat))
    (h : mem_agree_on tcp1 tcp2 ((addr, len) :: rest)) :
    umoven tcp2 addr len = umoven tcp1 addr len := by
  unfold umoven
  apply mapM_option_congr
  intro i hi
  exact (h (addr, len) (List.mem_cons_self _ _) i (List.mem_range.mp hi)).symm

theorem mem_agree_on_tail (tcp1 tcp2 : tcb) (r : Nat × Nat) (rest : List (Nat × Nat))
    (h : mem_agree_on tcp1 tcp2 (r :: rest)) : mem_agree_on tcp1 tcp2 rest :=
  fun x hx => h x (List.mem_cons_of_mem r hx)

theorem umove_or_printaddr_congr (tcp1 tcp2 : tcb) (addr len : Nat) (rest : List (Nat × Nat))
    (h : mem_agree_on tcp1 tcp2 ((addr, len) :: rest)) :
    umove_or_printaddr tcp2 addr len = umove_or_printaddr tcp1 addr len := by
  unfold umove_or_printaddr
  rw [umoven_congr tcp1 tcp2 addr len rest h]

theorem tee_print_params_congr (tcp1 tcp2 : tcb) (start n : Nat)
    (h : mem_agree_on tcp1 tcp2 (tee_print_params tcp1 start n).2) :
    tee_print_params tcp2 start n = tee_print_params tcp1 start n := by
  unfold tee_print_params print_array at h ⊢
  simp only [] at h ⊢
  have hel : ∀ idx ∈ List.range n,
      print_array_elem tcp2 start sizeof_tee_ioctl_param
        (fun elem_buf => tee_print_param_fn (tee_ioctl_param.ofBytes elem_buf)) idx =
      print_array_elem tcp1 start sizeof_tee_ioctl_param
        (fun elem_buf => tee_print_param_fn (tee_ioctl_param.ofBytes elem_buf)) idx := by
    intro idx hidx
    have hu : umoven tcp2 (start + idx * sizeof_tee_ioctl_param) sizeof_tee_ioctl_param =
        umoven tcp1 (start + idx * sizeof_tee_ioctl_param) sizeof_tee_ioctl_param := by
      unfold umoven
      apply mapM_option_congr
      intro i hi
      exact (h (start + idx * sizeof_tee_ioctl_param, sizeof_tee_ioctl_param)
        (List.mem_map.mpr ⟨idx, hidx, rfl⟩) i (List.mem_range.mp hi)).symm
    unfold print_array_elem
    rw [hu]
  rw [List.map_congr_left hel]

theorem tee_fetch_buf_data_congr (tcp1 tcp2 : tcb) (arg S off : Nat)
    (hphase : tcp2.entering = tcp1.entering)
    (h : mem_agree_on tcp1 tcp2 (tee_fetch_buf_data tcp1 arg S off).reads) :
    tee_fetch_buf_data tcp2 arg S off = tee_fetch_buf_data tcp1 arg S off := by
  rcases fetch_cases tcp1 arg S off with ⟨hr, e⟩ | ⟨hb, hr, hoob, e⟩ | ⟨hb, hr, hlo, hhi, hs, e⟩ |
    ⟨hb, sb, hr, hlo, hhi, hs, hent, hne, e⟩ | ⟨hb, sb, hr, hlo, hhi, hs, hph, e⟩
  all_goals
    rw [e] at h
    simp only [] at h
    have hr2 := (umoven_congr tcp1 tcp2 _ _ _ h).trans hr
  · rw [e]
    unfold tee_fetch_buf_data umove_or_printaddr
    simp only [hr2]
  · rw [e]
    unfold tee_fetch_buf_data umove_or_printaddr
    simp only [hr2]
    rw [if_pos hoob]
    simp
  all_goals
    have hs2 := (umoven_congr tcp1 tcp2 _ _ _ (mem_agree_on_tail tcp1 tcp2 _ _ h)).trans hs
    have h1 : ¬ ((tee_ioctl_buf_data.ofBytes hb).buf_len > TEE_MAX_ARG_SIZE ∨
        (tee_ioctl_buf_data.ofBytes hb).buf_len < S) := by omega
  · rw [e]
    unfold tee_fetch_buf_data umove_or_printaddr
    simp only [hr2]
    rw [if_neg h1]
    simp only [hs2]
    simp
  · rw [e]
    unfold tee_fetch_buf_data umove_or_printaddr
    simp only [hr2]
    rw [if_neg h1]
    simp only [hs2]
    have hex := size_check_exact S _ _ (field4_lt sb off) hlo hhi
    have h2 : tcp2.entering = true ∧
        (S + TEE_IOCTL_PARAM_SIZE (field sb off 4)) % 2 ^ 64 ≠
          (tee_ioctl_buf_data.ofBytes hb).buf_len :=
      ⟨hphase.trans hent, fun hc => hne (hex.mp hc)⟩
    rw [if_pos h2]
    simp
  · rw [e]
    unfold tee_fetch_buf_data umove_or_printaddr
    simp only [hr2]
    rw [if_neg h1]
    simp only [hs2]
    have hex := size_check_exact S _ _ (field4_lt sb off) hlo hhi
    have h2 : ¬ (tcp2.entering = true ∧
        (S + TEE_IOCTL_PARAM_SIZE (field sb off 4)) % 2 ^ 64 ≠
          (tee_ioctl_buf_data.ofBytes hb).buf_len) := by
      rintro ⟨h2a, h2b⟩
      rcases hph with hph | hph
      · rw [hphase, hph] at h2a; simp at h2a
      · exact h2b (hex.mpr hph)
    rw [if_neg h2]

theorem tee_open_session_congr (tcp1 tcp2 : tcb) (arg : Nat)
    (hphase : tcp2.entering = tcp1.entering) (hfail : tcp2.syserror = tcp1.syserror)
    (h : mem_agree_on tcp1 tcp2 (tee_open_session tcp1 arg).reads) :
    tee_open_session tcp2 arg = tee_open_session tcp1 arg := by
  unfold tee_open_session at h ⊢
  rw [hphase, hfail]
  by_cases hent : tcp1.entering = true
  · simp only [hent, if_true] at h ⊢
    by_cases hr : (tee_fetch_buf_data tcp1 arg sizeof_tee_ioctl_open_session_arg offsetof_open_session_num_params).rval ≠ 0
    · rw [if_pos hr] at h
      rw [tee_fetch_buf_data_congr tcp1 tcp2 _ _ _ hphase h]
      simp only [if_pos hr]
    · rw [if_neg hr] at h
      simp only [] at h
      rw [mem_agree_on_append] at h
      rw [tee_fetch_buf_data_congr tcp1 tcp2 _ _ _ hphase h.1]
      simp only [if_neg hr]
      rw [tee_print_params_congr tcp1 tcp2 _ _ h.2]
  · simp only [hent] at h ⊢
    by_cases hse : tcp1.syserror = true
    · simp only [hse, if_true]
      simp
    · simp only [hse] at h ⊢
      by_cases hr : (tee_fetch_buf_data tcp1 arg sizeof_tee_ioctl_open_session_arg offsetof_open_session_num_params).rval ≠ 0
      · simp only [Bool.false_eq_true, if_false, if_pos hr] at h
        rw [tee_fetch_buf_data_congr tcp1 tcp2 _ _ _ hphase h]
        simp only [Bool.false_eq_true, if_false, if_pos hr]
      · simp only [Bool.false_eq_true, if_false, if_neg hr] at h
        rw [mem_agree_on_append] at h
        rw [tee_fetch_buf_data_congr tcp1 tcp2 _ _ _ hphase h.1]
        simp only [Bool.false_eq_true, if_false, if_neg hr]
        rw [tee_print_params_congr tcp1 tcp2 _ _ h.2]

theorem tee_invoke_congr (tcp1 tcp2 : tcb) (arg : Nat)
    (hphase : tcp2.entering = tcp1.entering) (hfail : tcp2.syserror = tcp1.syserror)
    (h : mem_agree_on tcp1 tcp2 (tee_invoke tcp1 arg).reads) :
    tee_invoke tcp2 arg = tee_invoke tcp1 arg := by
  unfold tee_invoke at h ⊢
  rw [hphase, hfail]
  by_cases hent : tcp1.entering = true
  · simp only [hent, if_true] at h ⊢
    by_cases hr : (tee_fetch_buf_data tcp1 arg sizeof_tee_ioctl_invoke_arg offsetof_invoke_num_params).rval ≠ 0
    · rw [if_pos hr] at h
      rw [tee_fetch_buf_data_congr tcp1 tcp2 _ _ _ hphase h]
      simp only [if_pos hr]
    · rw [if_neg hr] at h
      simp only [] at h
      rw [mem_agree_on_append] at h
      rw [tee_fetch_buf_data_congr tcp1 tcp2 _ _ _ hphase h.1]
      simp only [if_neg hr]
      rw [tee_print_params_congr tcp1 tcp2 _ _ h.2]
  · simp only [hent] at h ⊢
    by_cases hse : tcp1.syserror = true
    · simp only [hse, if_true]
      simp
    · simp only [hse] at h ⊢
      by_cases hr : (tee_fetch_buf_data tcp1 arg sizeof_tee_ioctl_invoke_arg offsetof_invoke_num_params).rval ≠ 0
      · simp only [Bool.false_eq_true, if_false, if_pos hr] at h
        rw [tee_fetch_buf_data_congr tcp1 tcp2 _ _ _ hphase h]
        simp only [Bool.false_eq_true, if_false, if_pos hr]
      · simp only [Bool.false_eq_true, if_false, if_neg hr] at h
        rw [mem_agree_on_append] at h
        rw [tee_fetch_buf_data_congr tcp1 tcp2 _ _ _ hphase h.1]
        simp only [Bool.false_eq_true, if_false, if_neg hr]
        rw [tee_print_params_congr tcp1 tcp2 _ _ h.2]

theorem tee_suppl_recv_congr (tcp1 tcp2 : tcb) (arg : Nat)
    (hphase : tcp2.entering = tcp1.entering) (hfail : tcp2.syserror = tcp1.syserror)
    (h : mem_agree_on tcp1 tcp2 (tee_suppl_recv tcp1 arg).reads) :
    tee_suppl_recv tcp2 arg = tee_suppl_recv tcp1 arg := by
  unfold tee_suppl_recv at h ⊢
  rw [hphase, hfail]
  by_cases hent : tcp1.entering = true
  · simp only [hent, if_true] at h ⊢
    by_cases hr : (tee_fetch_buf_data tcp1 arg sizeof_tee_iocl_supp_recv_arg offsetof_supp_recv_num_params).rval ≠ 0
    · rw [if_pos hr] at h
      rw [tee_fetch_buf_data_congr tcp1 tcp2 _ _ _ hphase h]
      simp only [if_pos hr]
    · rw [if_neg hr] at h
      simp only [] at h
      rw [mem_agree_on_append] at h
      rw [tee_fetch_buf_data_congr tcp1 tcp2 _ _ _ hphase h.1]
      simp only [if_neg hr]
      rw [tee_print_params_congr tcp1 tcp2 _ _ h.2]
  · simp only [hent] at h ⊢
    by_cases hse : tcp1.syserror = true
    · simp only [hse, if_true]
      simp
    · simp only [hse] at h ⊢
      by_cases hr : (tee_fetch_buf_data tcp1 arg sizeof_tee_iocl_supp_recv_arg offsetof_supp_recv_num_params).rval ≠ 0
      · simp only [Bool.false_eq_true, if_false, if_pos hr] at h
        rw [tee_fetch_buf_data_congr tcp1 tcp2 _ _ _ hphase h]
        simp only [Bool.false_eq_true, if_false, if_pos hr]
      · simp only [Bool.false_eq_true, if_false, if_neg hr] at h
        rw [mem_agree_on_append] at h
        rw [tee_fetch_buf_data_congr tcp1 tcp2 _ _ _ hphase h.1]
        simp only [Bool.false_eq_true, if_false, if_neg hr]
        rw [tee_print_params_congr tcp1 tcp2 _ _ h.2]

theorem tee_suppl_send_congr (tcp1 tcp2 : tcb) (arg : Nat)
    (hphase : tcp2.entering = tcp1.entering) (hfail : tcp2.syserror = tcp1.syserror)
    (h : mem_agree_on tcp1 tcp2 (tee_suppl_send tcp1 arg).reads) :
    tee_suppl_send tcp2 arg = tee_suppl_send tcp1 arg := by
  unfold tee_suppl_send at h ⊢
  rw [hphase, hfail]
  by_cases hent : tcp1.entering = true
  · simp only [hent, if_true] at h ⊢
    by_cases hr : (tee_fetch_buf_data tcp1 arg sizeof_tee_iocl_supp_send_arg offsetof_supp_send_num_params).rval ≠ 0
    · rw [if_pos hr] at h
      rw [tee_fetch_buf_data_congr tcp1 tcp2 _ _ _ hphase h]
      simp only [if_pos hr]
    · rw [if_neg hr] at h
      simp only [] at h
      rw [mem_agree_on_append] at h
      rw [tee_fetch_buf_data_congr tcp1 tcp2 _ _ _ hphase h.1]
      simp only [if_neg hr]
      rw [tee_print_params_congr tcp1 tcp2 _ _ h.2]
  · simp only [hent] at h ⊢
    by_cases hse : tcp1.syserror = true
    · simp only [hse, if_true]
      simp
    · simp only [hse] at h ⊢
      by_cases hr : (tee_fetch_buf_data tcp1 arg sizeof_tee_iocl_supp_send_arg offsetof_supp_send_num_params).rval ≠ 0
      · simp only [Bool.false_eq_true, if_false, if_pos hr] at h
        rw [tee_fetch_buf_data_congr tcp1 tcp2 _ _ _ hphase h]
        simp only [Bool.false_eq_true, if_false, if_pos hr]
      · simp only [Bool.false_eq_true, if_false, if_neg hr] at h
        rw [mem_agree_on_append] at h
        rw [tee_fetch_buf_data_congr tcp1 tcp2 _ _ _ hphase h.1]
        simp only [Bool.false_eq_true, if_false, if_neg hr]
        rw [tee_print_params_congr tcp1 tcp2 _ _ h.2]

theorem tee_ioctl_version (tcp : tcb) (arg : Nat) :
    tee_ioctl tcp TEE_IOC_VERSION arg = tee_version tcp arg := rfl

theorem tee_ioctl_cancel (tcp : tcb) (arg : Nat) :
    tee_ioctl tcp TEE_IOC_CANCEL arg = tee_cancel tcp arg := rfl

theorem tee_ioctl_close_session (tcp : tcb) (arg : Nat) :
    tee_ioctl tcp TEE_IOC_CLOSE_SESSION arg = tee_close_session tcp arg := rfl

theorem tee_ioctl_shm_alloc (tcp : tcb) (arg : Nat) :
    tee_ioctl tcp TEE_IOC_SHM_ALLOC arg = tee_shm_alloc tcp arg := rfl

theorem tee_ioctl_shm_register_fd (tcp : tcb) (arg : Nat) :
    tee_ioctl tcp TEE_IOC_SHM_REGISTER_FD arg = tee_shm_register_fd tcp arg := rfl

theorem tee_ioctl_shm_register (tcp : tcb) (arg : Nat) :
    tee_ioctl tcp TEE_IOC_SHM_REGISTER arg = tee_shm_register tcp arg := rfl

theorem tee_ioctl_default (tcp : tcb) (code arg : Nat) (hcode : code ∉ handled_codes) :
    tee_ioctl tcp code arg = { rval := RVAL_DECODED, out := [], reads := [] } := by
  simp only [handled_codes, List.mem_cons, List.mem_singleton, List.not_mem_nil, or_false,
    not_or] at hcode
  obtain ⟨h1, h2, h3, h4, h5, h6, h7, h8, h9, h10⟩ := hcode
  simp only [tee_ioctl, if_neg h1, if_neg h2, if_neg h3, if_neg h4, if_neg h5, if_neg h6,
    if_neg h7, if_neg h8, if_neg h9, if_neg h10]

theorem handled_codes_cases (code : Nat) (h : code ∈ handled_codes) :
    code = TEE_IOC_VERSION ∨ code = TEE_IOC_OPEN_SESSION ∨ code = TEE_IOC_INVOKE ∨
    code = TEE_IOC_CANCEL ∨ code = TEE_IOC_CLOSE_SESSION ∨ code = TEE_IOC_SUPPL_RECV ∨
    code = TEE_IOC_SUPPL_SEND ∨ code = TEE_IOC_SHM_ALLOC ∨ code = TEE_IOC_SHM_REGISTER_FD ∨
    code = TEE_IOC_SHM_REGISTER := by
  simpa only [handled_codes, List.mem_cons, List.mem_singleton, List.not_mem_nil,
    or_false] using h

theorem tee_version_congr (tcp1 tcp2 : tcb) (arg : Nat)
    (hphase : tcp2.entering = tcp1.entering)
    (h : mem_agree_on tcp1 tcp2 (tee_version tcp1 arg).reads) :
    tee_version tcp2 arg = tee_version tcp1 arg := by
  by_cases hent : tcp1.entering = true
  · unfold tee_version
    rw [hphase]
    simp [hent]
  · have hr : (tee_version tcp1 arg).reads = [(arg, sizeof_tee_ioctl_version_data)] := by
      unfold tee_version umove_or_printaddr
      cases umoven tcp1 arg sizeof_tee_ioctl_version_data <;> simp_all
    rw [hr] at h
    unfold tee_version
    rw [hphase, umove_or_printaddr_congr tcp1 tcp2 _ _ _ h]

theorem tee_cancel_congr (tcp1 tcp2 : tcb) (arg : Nat)
    (h : mem_agree_on tcp1 tcp2 (tee_cancel tcp1 arg).reads) :
    tee_cancel tcp2 arg = tee_cancel tcp1 arg := by
  have hr : (tee_cancel tcp1 arg).reads = [(arg, sizeof_tee_ioctl_cancel_arg)] := by
    unfold tee_cancel umove_or_printaddr
    cases umoven tcp1 arg sizeof_tee_ioctl_cancel_arg <;> rfl
  rw [hr] at h
  unfold tee_cancel
  rw [umove_or_printaddr_congr tcp1 tcp2 _ _ _ h]

theorem tee_close_session_congr (tcp1 tcp2 : tcb) (arg : Nat)
    (h : mem_agree_on tcp1 tcp2 (tee_close_session tcp1 arg).reads) :
    tee_close_session tcp2 arg = tee_close_session tcp1 arg := by
  have hr : (tee_close_session tcp1 arg).reads = [(arg, sizeof_tee_ioctl_close_session_arg)] := by
    unfold tee_close_session umove_or_printaddr
    cases umoven tcp1 arg sizeof_tee_ioctl_close_session_arg <;> rfl
  rw [hr] at h
  unfold tee_close_session
  rw [umove_or_printaddr_congr tcp1 tcp2 _ _ _ h]

theorem tee_shm_alloc_congr (tcp1 tcp2 : tcb) (arg : Nat)
    (hphase : tcp2.entering = tcp1.entering) (hfail : tcp2.syserror = tcp1.syserror)
    (h : mem_agree_on tcp1 tcp2 (tee_shm_alloc tcp1 arg).reads) :
    tee_shm_alloc tcp2 arg = tee_shm_alloc tcp1 arg := by
  by_cases hskip : tcp1.entering = false ∧ tcp1.syserror = true
  · unfold tee_shm_alloc
    rw [hphase, hfail]
    simp [hskip.1, hskip.2]
  · have hr : (tee_shm_alloc tcp1 arg).reads = [(arg, sizeof_tee_ioctl_shm_alloc_data)] := by
      unfold tee_shm_alloc umove_or_printaddr
      cases h1 : tcp1.entering <;> cases h2 : tcp1.syserror <;>
        cases umoven tcp1 arg sizeof_tee_ioctl_shm_alloc_data <;> simp_all
    rw [hr] at h
    unfold tee_shm_alloc
    rw [hphase, hfail, umove_or_printaddr_congr tcp1 tcp2 _ _ _ h]

theorem tee_shm_register_fd_congr (tcp1 tcp2 : tcb) (arg : Nat)
    (hphase : tcp2.entering = tcp1.entering) (hfail : tcp2.syserror = tcp1.syserror)
    (h : mem_agree_on tcp1 tcp2 (tee_shm_register_fd tcp1 arg).reads) :
    tee_shm_register_fd tcp2 arg = tee_shm_register_fd tcp1 arg := by
  by_cases hskip : tcp1.entering = false ∧ tcp1.syserror = true
  · unfold tee_shm_register_fd
    rw [hphase, hfail]
    simp [hskip.1, hskip.2]
  · have hr : (tee_shm_register_fd tcp1 arg).reads = [(arg, sizeof_tee_ioctl_shm_register_fd_data)] := by
      unfold tee_shm_register_fd umove_or_printaddr
      cases h1 : tcp1.entering <;> cases h2 : tcp1.syserror <;>
        cases umoven tcp1 arg sizeof_tee_ioctl_shm_register_fd_data <;> simp_all
    rw [hr] at h
    unfold tee_shm_register_fd
    rw [hphase, hfail, umove_or_printaddr_congr tcp1 tcp2 _ _ _ h]

theorem tee_shm_register_congr (tcp1 tcp2 : tcb) (arg : Nat)
    (hphase : tcp2.entering = tcp1.entering) (hfail : tcp2.syserror = tcp1.syserror)
    (h : mem_agree_on tcp1 tcp2 (tee_shm_register tcp1 arg).reads) :
    tee_shm_register tcp2 arg = tee_shm_register tcp1 arg := by
  by_cases hskip : tcp1.entering = false ∧ tcp1.syserror = true
  · unfold tee_shm_register
    rw [hphase, hfail]
    simp [hskip.1, hskip.2]
  · have hr : (tee_shm_register tcp1 arg).reads = [(arg, sizeof_tee_ioctl_shm_register_data)] := by
      unfold tee_shm_register umove_or_printaddr
      cases h1 : tcp1.entering <;> cases h2 : tcp1.syserror <;>
        cases umoven tcp1 arg sizeof_tee_ioctl_shm_register_data <;> simp_all
    rw [hr] at h
    unfold tee_shm_register
    rw [hphase, hfail, umove_or_printaddr_congr tcp1 tcp2 _ _ _ h]

/-- The read log of `tee_ioctl` is complete: a second traced process in the same
phase with the same call-failed flag, whose memory holds the same contents at
every address the first run reads, gets the same return value, output and
reads. -/
theorem tee_ioctl_congr (tcp1 tcp2 : tcb) (code arg : Nat)
    (hphase : tcp2.entering = tcp1.entering) (hfail : tcp2.syserror = tcp1.syserror)
    (h : mem_agree_on tcp1 tcp2 (tee_ioctl tcp1 code arg).reads) :
    tee_ioctl tcp2 code arg = tee_ioctl tcp1 code arg := by
  by_cases hcode : code ∈ handled_codes
  · rcases handled_codes_cases code hcode with rfl | rfl | rfl | rfl | rfl | rfl | rfl |
      rfl | rfl | rfl
    · rw [tee_ioctl_version] at h
      rw [tee_ioctl_version, tee_ioctl_version]
      exact tee_version_congr tcp1 tcp2 arg hphase h
    · rw [tee_ioctl_open_session] at h
      rw [tee_ioctl_open_session, tee_ioctl_open_session]
      exact tee_open_session_congr tcp1 tcp2 arg hphase hfail h
    · rw [tee_ioctl_invoke] at h
      rw [tee_ioctl_invoke, tee_ioctl_invoke]
      exact tee_invoke_congr tcp1 tcp2 arg hphase hfail h
    · rw [tee_ioctl_cancel] at h
      rw [tee_ioctl_cancel, tee_ioctl_cancel]
      exact tee_cancel_congr tcp1 tcp2 arg h
    · rw [tee_ioctl_close_session] at h
      rw [tee_ioctl_close_session, tee_ioctl_close_session]
      exact tee_close_session_congr tcp1 tcp2 arg h
    · rw [tee_ioctl_suppl_recv] at h
      rw [tee_ioctl_suppl_recv, tee_ioctl_suppl_recv]
      exact tee_suppl_recv_congr tcp1 tcp2 arg hphase hfail h
    · rw [tee_ioctl_suppl_send] at h
      rw [tee_ioctl_suppl_send, tee_ioctl_suppl_send]
      exact tee_suppl_send_congr tcp1 tcp2 arg hphase hfail h
    · rw [tee_ioctl_shm_alloc] at h
      rw [tee_ioctl_shm_alloc, tee_ioctl_shm_alloc]
      exact tee_shm_alloc_congr tcp1 tcp2 arg hphase hfail h
    · rw [tee_ioctl_shm_register_fd] at h
      rw [tee_ioctl_shm_register_fd, tee_ioctl_shm_register_fd]
      exact tee_shm_register_fd_congr tcp1 tcp2 arg hphase hfail h
    · rw [tee_ioctl_shm_register] at h
      rw [tee_ioctl_shm_register, tee_ioctl_shm_register]
      exact tee_shm_register_congr tcp1 tcp2 arg hphase hfail h
  · rw [tee_ioctl_default tcp1 code arg hcode, tee_ioctl_default tcp2 code arg hcode]

/-- C16: whenever `tee_fetch_buf_data` succeeds, the header and the command
struct were read, and the parameter base address it returns is
`(buf_ptr + S) mod 2^64` when the `num_params` just read is positive and `0`
when it is zero. -/
theorem fetch_params_base (tcp : tcb) (arg S off : Nat)
    (hsucc : (tee_fetch_buf_data tcp arg S off).rval = 0) :
    ∃ hb sb, umoven tcp arg sizeof_tee_ioctl_buf_data = some hb ∧
      umoven tcp (tee_ioctl_buf_data.ofBytes hb).buf_ptr S = some sb ∧
      (tee_fetch_buf_data tcp arg S off).num_params = field sb off 4 ∧
      (0 < field sb off 4 →
        (tee_fetch_buf_data tcp arg S off).params =
          ((tee_ioctl_buf_data.ofBytes hb).buf_ptr + S) % 2 ^ 64) ∧
      (field sb off 4 = 0 → (tee_fetch_buf_data tcp arg S off).params = 0) := by
  rcases fetch_cases tcp arg S off with ⟨_, h⟩ | ⟨hb, _, _, h⟩ | ⟨hb, _, _, _, _, h⟩ |
    ⟨hb, sb, _, _, _, _, _, _, h⟩ | ⟨hb, sb, hr, _, _, hs, _, h⟩
  · rw [h] at hsucc; simp [RVAL_IOCTL_DECODED] at hsucc
  · rw [h] at hsucc; simp [RVAL_IOCTL_DECODED] at hsucc
  · rw [h] at hsucc; simp [RVAL_IOCTL_DECODED] at hsucc
  · rw [h] at hsucc; simp [RVAL_IOCTL_DECODED] at hsucc
  · rw [h]
    refine ⟨hb, sb, hr, hs, rfl, ?_, ?_⟩
    · intro hpos
      have hne : field sb off 4 ≠ 0 := by omega
      simp [hne]
    · intro hz
      simp [hz]

theorem fetch_params_base_witness :
    (tee_fetch_buf_data (sample_tcb true false 56 invoke_one_param_image) 4096 24 20).rval
      = 0 ∧
    (tee_fetch_buf_data (sample_tcb true false 56 invoke_one_param_image) 4096 24 20).params
      = (8192 + 24) % 2 ^ 64 ∧
    (tee_fetch_buf_data (sample_tcb true false 24 (List.replicate 24 0)) 4096 24 20).params
      = 0 :=
  ⟨by decide,
   by
    obtain ⟨hb, sb, h1, h2, _, h4, _⟩ := fetch_params_base
      (sample_tcb true false 56 invoke_one_param_image) 4096 24 20 (by decide)
    have e1 : hb = hdr_image 56 := by
      have : umoven (sample_tcb true false 56 invoke_one_param_image) 4096
        sizeof_tee_ioctl_buf_data = some (hdr_image 56) := by decide
      rw [this] at h1
      exact (Option.some.inj h1).symm
    subst e1
    have e2 : sb = invoke_one_param_image.take 24 := by
      have : umoven (sample_tcb true false 56 invoke_one_param_image)
        (tee_ioctl_buf_data.ofBytes (hdr_image 56)).buf_ptr 24 =
          some (invoke_one_param_image.take 24) := by decide
      rw [this] at h2
      exact (Option.some.inj h2).symm
    subst e2
    exact h4 (by decide),
   by decide⟩

/-- C18: the entry-phase size check is exact: for a fixed struct size `S` (any
size up to `TEE_MAX_ARG_SIZE`), every 32-bit `num_params` and every 32-bit
`buf_len`, the comparison of `tee_fetch_buf_data`, computed in 64-bit `size_t`
arithmetic, holds if and only if `S + 32 * num_params = buf_len` over the
natural numbers; hence whenever validation succeeds at entry,
`num_params <= (TEE_MAX_ARG_SIZE - S) / 32`. -/
theorem entry_size_check_exact (S : Nat) (hS : S ≤ TEE_MAX_ARG_SIZE) :
    (∀ np len, np < 2 ^ 32 → len < 2 ^ 32 →
      ((S + TEE_IOCTL_PARAM_SIZE np) % 2 ^ 64 = len ↔ S + 32 * np = len)) ∧
    (∀ tcp arg off, tcp.entering = true →
      (tee_fetch_buf_data tcp arg S off).rval = 0 →
      (tee_fetch_buf_data tcp arg S off).num_params < 2 ^ 32 ∧
      (tee_fetch_buf_data tcp arg S off).buf.buf_len < 2 ^ 32 ∧
      S + 32 * (tee_fetch_buf_data tcp arg S off).num_params =
        (tee_fetch_buf_data tcp arg S off).buf.buf_len ∧
      (tee_fetch_buf_data tcp arg S off).num_params ≤ (TEE_MAX_ARG_SIZE - S) / 32) := by
  constructor
  · intro np len hnp hlen
    unfold TEE_IOCTL_PARAM_SIZE sizeof_tee_ioctl_param
    unfold TEE_MAX_ARG_SIZE at hS
    norm_num at hnp hlen ⊢
    omega
  · intro tcp arg off hent hsucc
    rcases fetch_cases tcp arg S off with ⟨_, h⟩ | ⟨hb, _, _, h⟩ | ⟨hb, _, _, _, _, h⟩ |
      ⟨hb, sb, _, _, _, _, _, _, h⟩ | ⟨hb, sb, hr, hlo, hhi, hs, hph, h⟩
    · rw [h] at hsucc; simp [RVAL_IOCTL_DECODED] at hsucc
    · rw [h] at hsucc; simp [RVAL_IOCTL_DECODED] at hsucc
    · rw [h] at hsucc; simp [RVAL_IOCTL_DECODED] at hsucc
    · rw [h] at hsucc; simp [RVAL_IOCTL_DECODED] at hsucc
    · rw [h]
      simp only []
      have hnp := field4_lt sb off
      rcases hph with hph | hph
      · rw [hent] at hph; simp at hph
      · unfold TEE_MAX_ARG_SIZE at hhi ⊢
        norm_num
        omega

theorem entry_size_check_exact_witness :
    (sizeof_tee_ioctl_open_session_arg ≤ TEE_MAX_ARG_SIZE ∧ (30 : Nat) < 2 ^ 32 ∧
      (1016 : Nat) < 2 ^ 32) ∧
    ((sizeof_tee_ioctl_open_session_arg + TEE_IOCTL_PARAM_SIZE 30) % 2 ^ 64 = 1016 ↔
      sizeof_tee_ioctl_open_session_arg + 32 * 30 = 1016) :=
  ⟨⟨by decide, by decide, by decide⟩,
   (entry_size_check_exact sizeof_tee_ioctl_open_session_arg (by decide)).1 30 1016
     (by decide) (by decide)⟩

theorem fetch_rval (tcp : tcb) (arg S off : Nat) :
    (tee_fetch_buf_data tcp arg S off).rval = 0 ∨
    (tee_fetch_buf_data tcp arg S off).rval = RVAL_IOCTL_DECODED := by
  rcases fetch_cases tcp arg S off with ⟨_, h⟩ | ⟨hb, _, _, h⟩ | ⟨hb, _, _, _, _, h⟩ |
    ⟨hb, sb, _, _, _, _, _, _, h⟩ | ⟨hb, sb, _, _, _, _, _, h⟩ <;> rw [h] <;> simp

theorem tee_open_session_rval (tcp : tcb) (arg : Nat) :
    (tcp.entering = false → (tee_open_session tcp arg).rval = RVAL_IOCTL_DECODED) ∧
    ((tee_open_session tcp arg).rval = 0 ↔
      tcp.entering = true ∧ (tee_fetch_buf_data tcp arg sizeof_tee_ioctl_open_session_arg offsetof_open_session_num_params).rval = 0) := by
  have hf := fetch_rval tcp arg sizeof_tee_ioctl_open_session_arg offsetof_open_session_num_params
  unfold tee_open_session
  cases hent : tcp.entering <;> cases hse : tcp.syserror <;>
    by_cases hr : (tee_fetch_buf_data tcp arg sizeof_tee_ioctl_open_session_arg offsetof_open_session_num_params).rval = 0 <;>
    simp_all [RVAL_IOCTL_DECODED]

theorem tee_invoke_rval (tcp : tcb) (arg : Nat) :
    (tcp.entering = false → (tee_invoke tcp arg).rval = RVAL_IOCTL_DECODED) ∧
    ((tee_invoke tcp arg).rval = 0 ↔
      tcp.entering = true ∧ (tee_fetch_buf_data tcp arg sizeof_tee_ioctl_invoke_arg offsetof_invoke_num_params).rval = 0) := by
  have hf := fetch_rval tcp arg sizeof_tee_ioctl_invoke_arg offsetof_invoke_num_params
  unfold tee_invoke
  cases hent : tcp.entering <;> cases hse : tcp.syserror <;>
    by_cases hr : (tee_fetch_buf_data tcp arg sizeof_tee_ioctl_invoke_arg offsetof_invoke_num_params).rval = 0 <;>
    simp_all [RVAL_IOCTL_DECODED]

theorem tee_suppl_recv_rval (tcp : tcb) (arg : Nat) :
    (tcp.entering = false → (tee_suppl_recv tcp arg).rval = RVAL_IOCTL_DECODED) ∧
    ((tee_suppl_recv tcp arg).rval = 0 ↔
      tcp.entering = true ∧ (tee_fetch_buf_data tcp arg sizeof_tee_iocl_supp_recv_arg offsetof_supp_recv_num_params).rval = 0) := by
  have hf := fetch_rval tcp arg sizeof_tee_iocl_supp_recv_arg offsetof_supp_recv_num_params
  unfold tee_suppl_recv
  cases hent : tcp.entering <;> cases hse : tcp.syserror <;>
    by_cases hr : (tee_fetch_buf_data tcp arg sizeof_tee_iocl_supp_recv_arg offsetof_supp_recv_num_params).rval = 0 <;>
    simp_all [RVAL_IOCTL_DECODED]

theorem tee_suppl_send_rval (tcp : tcb) (arg : Nat) :
    (tcp.entering = false → (tee_suppl_send tcp arg).rval = RVAL_IOCTL_DECODED) ∧
    ((tee_suppl_send tcp arg).rval = 0 ↔
      tcp.entering = true ∧ (tee_fetch_buf_data tcp arg sizeof_tee_iocl_supp_send_arg offsetof_supp_send_num_params).rval = 0) := by
  have hf := fetch_rval tcp arg sizeof_tee_iocl_supp_send_arg offsetof_supp_send_num_params
  unfold tee_suppl_send
  cases hent : tcp.entering <;> cases hse : tcp.syserror <;>
    by_cases hr : (tee_fetch_buf_data tcp arg sizeof_tee_iocl_supp_send_arg offsetof_supp_send_num_params).rval = 0 <;>
    simp_all [RVAL_IOCTL_DECODED]

theorem tee_shm_alloc_rval (tcp : tcb) (arg : Nat) :
    (tcp.entering = false → (tee_shm_alloc tcp arg).rval = RVAL_IOCTL_DECODED) ∧
    ((tee_shm_alloc tcp arg).rval = 0 ↔
      tcp.entering = true ∧ (umoven tcp arg sizeof_tee_ioctl_shm_alloc_data).isSome = true) := by
  unfold tee_shm_alloc umove_or_printaddr
  cases hent : tcp.entering <;> cases hse : tcp.syserror <;>
    cases hr : umoven tcp arg sizeof_tee_ioctl_shm_alloc_data <;>
    simp_all [RVAL_IOCTL_DECODED]

theorem tee_shm_register_fd_rval (tcp : tcb) (arg : Nat) :
    (tcp.entering = false → (tee_shm_register_fd tcp arg).rval = RVAL_IOCTL_DECODED) ∧
    ((tee_shm_register_fd tcp arg).rval = 0 ↔
      tcp.entering = true ∧ (umoven tcp arg sizeof_tee_ioctl_shm_register_fd_data).isSome = true) := by
  unfold tee_shm_register_fd umove_or_printaddr
  cases hent : tcp.entering <;> cases hse : tcp.syserror <;>
    cases hr : umoven tcp arg sizeof_tee_ioctl_shm_register_fd_data <;>
    simp_all [RVAL_IOCTL_DECODED]

theorem tee_shm_register_rval (tcp : tcb) (arg : Nat) :
    (tcp.entering = false → (tee_shm_register tcp arg).rval = RVAL_IOCTL_DECODED) ∧
    ((tee_shm_register tcp arg).rval = 0 ↔
      tcp.entering = true ∧ (umoven tcp arg sizeof_tee_ioctl_shm_register_data).isSome = true) := by
  unfold tee_shm_register umove_or_printaddr
  cases hent : tcp.entering <;> cases hse : tcp.syserror <;>
    cases hr : umoven tcp arg sizeof_tee_ioctl_shm_register_data <;>
    simp_all [RVAL_IOCTL_DECODED]

theorem tee_version_rval (tcp : tcb) (arg : Nat) :
    (tcp.entering = false → (tee_version tcp arg).rval = RVAL_IOCTL_DECODED) ∧
    ((tee_version tcp arg).rval = 0 ↔ tcp.entering = true) := by
  unfold tee_version umove_or_printaddr
  cases hent : tcp.entering <;>
    cases hr : umoven tcp arg sizeof_tee_ioctl_version_data <;>
    simp_all [RVAL_IOCTL_DECODED]

theorem tee_cancel_rval (tcp : tcb) (arg : Nat) :
    (tee_cancel tcp arg).rval = RVAL_IOCTL_DECODED := by
  unfold tee_cancel umove_or_printaddr
  cases umoven tcp arg sizeof_tee_ioctl_cancel_arg <;> rfl

theorem tee_close_session_rval (tcp : tcb) (arg : Nat) :
    (tee_close_session tcp arg).rval = RVAL_IOCTL_DECODED := by
  unfold tee_close_session umove_or_printaddr
  cases umoven tcp arg sizeof_tee_ioctl_close_session_arg <;> rfl

/-- C19: for each of the ten handled operation codes, every argument, memory
state and call-failed flag: in the exit phase `tee_ioctl` returns
`RVAL_IOCTL_DECODED`, never the continue value `0`; it returns `0` exactly when
the phase is entry and the command is Version (unconditionally), or a
variable-size command whose entry-phase `tee_fetch_buf_data` succeeded, or
ShmAlloc, ShmRegisterFd or ShmRegister whose struct at `arg` was readable;
Cancel and CloseSession never return it. -/
theorem continue_only_at_entry (tcp : tcb) (code arg : Nat)
    (hcode : code ∈ handled_codes) :
    (tcp.entering = false → (tee_ioctl tcp code arg).rval = RVAL_IOCTL_DECODED) ∧
    ((tee_ioctl tcp code arg).rval = 0 ↔
      tcp.entering = true ∧
      (code = TEE_IOC_VERSION ∨
        (∃ S off, (code, S, off) ∈ variable_size_commands ∧
          (tee_fetch_buf_data tcp arg S off).rval = 0) ∨
        (∃ S, (code, S) ∈ dual_phase_commands ∧ (umoven tcp arg S).isSome = true))) ∧
    RVAL_IOCTL_DECODED ≠ 0 := by
  refine ⟨?_, ?_, by decide⟩
  · rcases handled_codes_cases code hcode with rfl | rfl | rfl | rfl | rfl | rfl | rfl |
      rfl | rfl | rfl
    · rw [tee_ioctl_version]; exact (tee_version_rval tcp arg).1
    · rw [tee_ioctl_open_session]; exact (tee_open_session_rval tcp arg).1
    · rw [tee_ioctl_invoke]; exact (tee_invoke_rval tcp arg).1
    · rw [tee_ioctl_cancel]; exact fun _ => tee_cancel_rval tcp arg
    · rw [tee_ioctl_close_session]; exact fun _ => tee_close_session_rval tcp arg
    · rw [tee_ioctl_suppl_recv]; exact (tee_suppl_recv_rval tcp arg).1
    · rw [tee_ioctl_suppl_send]; exact (tee_suppl_send_rval tcp arg).1
    · rw [tee_ioctl_shm_alloc]; exact (tee_shm_alloc_rval tcp arg).1
    · rw [tee_ioctl_shm_register_fd]; exact (tee_shm_register_fd_rval tcp arg).1
    · rw [tee_ioctl_shm_register]; exact (tee_shm_register_rval tcp arg).1
  · rcases handled_codes_cases code hcode with rfl | rfl | rfl | rfl | rfl | rfl | rfl |
      rfl | rfl | rfl
    · rw [tee_ioctl_version, (tee_version_rval tcp arg).2]
      simp
    · rw [tee_ioctl_open_session, (tee_open_session_rval tcp arg).2]
      simp [variable_size_commands, dual_phase_commands, TEE_IOC_VERSION,
        TEE_IOC_OPEN_SESSION, TEE_IOC_INVOKE, TEE_IOC_SUPPL_RECV, TEE_IOC_SUPPL_SEND,
        TEE_IOC_SHM_ALLOC, TEE_IOC_SHM_REGISTER_FD, TEE_IOC_SHM_REGISTER]
      intro _
      constructor
      · intro h
        exact ⟨_, _, ⟨rfl, rfl⟩, h⟩
      · rintro ⟨S, off, ⟨rfl, rfl⟩, h⟩
        exact h
    · rw [tee_ioctl_invoke, (tee_invoke_rval tcp arg).2]
      simp [variable_size_commands, dual_phase_commands, TEE_IOC_VERSION,
        TEE_IOC_OPEN_SESSION, TEE_IOC_INVOKE, TEE_IOC_SUPPL_RECV, TEE_IOC_SUPPL_SEND,
        TEE_IOC_SHM_ALLOC, TEE_IOC_SHM_REGISTER_FD, TEE_IOC_SHM_REGISTER]
      intro _
      constructor
      · intro h
        exact ⟨_, _, ⟨rfl, rfl⟩, h⟩
      · rintro ⟨S, off, ⟨rfl, rfl⟩, h⟩
        exact h
    · rw [tee_ioctl_cancel, tee_cancel_rval]
      simp [variable_size_commands, dual_phase_commands, TEE_IOC_VERSION, TEE_IOC_CANCEL,
        TEE_IOC_OPEN_SESSION, TEE_IOC_INVOKE, TEE_IOC_SUPPL_RECV, TEE_IOC_SUPPL_SEND,
        TEE_IOC_SHM_ALLOC, TEE_IOC_SHM_REGISTER_FD, TEE_IOC_SHM_REGISTER, RVAL_IOCTL_DECODED]
    · rw [tee_ioctl_close_session, tee_close_session_rval]
      simp [variable_size_commands, dual_phase_commands, TEE_IOC_VERSION,
        TEE_IOC_CLOSE_SESSION,
        TEE_IOC_OPEN_SESSION, TEE_IOC_INVOKE, TEE_IOC_SUPPL_RECV, TEE_IOC_SUPPL_SEND,
        TEE_IOC_SHM_ALLOC, TEE_IOC_SHM_REGISTER_FD, TEE_IOC_SHM_REGISTER, RVAL_IOCTL_DECODED]
    · rw [tee_ioctl_suppl_recv, (tee_suppl_recv_rval tcp arg).2]
      simp [variable_size_commands, dual_phase_commands, TEE_IOC_VERSION,
        TEE_IOC_OPEN_SESSION, TEE_IOC_INVOKE, TEE_IOC_SUPPL_RECV, TEE_IOC_SUPPL_SEND,
        TEE_IOC_SHM_ALLOC, TEE_IOC_SHM_REGISTER_FD, TEE_IOC_SHM_REGISTER]
      intro _
      constructor
      · intro h
        exact ⟨_, _, ⟨rfl, rfl⟩, h⟩
      · rintro ⟨S, off, ⟨rfl, rfl⟩, h⟩
        exact h
    · rw [tee_ioctl_suppl_send, (tee_suppl_send_rval tcp arg).2]
      simp [variable_size_commands, dual_phase_commands, TEE_IOC_VERSION,
        TEE_IOC_OPEN_SESSION, TEE_IOC_INVOKE, TEE_IOC_SUPPL_RECV, TEE_IOC_SUPPL_SEND,
        TEE_IOC_SHM_ALLOC, TEE_IOC_SHM_REGISTER_FD, TEE_IOC_SHM_REGISTER]
      intro _
      constructor
      · intro h
        exact ⟨_, _, ⟨rfl, rfl⟩, h⟩
      · rintro ⟨S, off, ⟨rfl, rfl⟩, h⟩
        exact h
    · rw [tee_ioctl_shm_alloc, (tee_shm_alloc_rval tcp arg).2]
      simp [variable_size_commands, dual_phase_commands, TEE_IOC_VERSION,
        TEE_IOC_OPEN_SESSION, TEE_IOC_INVOKE, TEE_IOC_SUPPL_RECV, TEE_IOC_SUPPL_SEND,
        TEE_IOC_SHM_ALLOC, TEE_IOC_SHM_REGISTER_FD, TEE_IOC_SHM_REGISTER]
    · rw [tee_ioctl_shm_register_fd, (tee_shm_register_fd_rval tcp arg).2]
      simp [variable_size_commands, dual_phase_commands, TEE_IOC_VERSION,
        TEE_IOC_OPEN_SESSION, TEE_IOC_INVOKE, TEE_IOC_SUPPL_RECV, TEE_IOC_SUPPL_SEND,
        TEE_IOC_SHM_ALLOC, TEE_IOC_SHM_REGISTER_FD, TEE_IOC_SHM_REGISTER]
    · rw [tee_ioctl_shm_register, (tee_shm_register_rval tcp arg).2]
      simp [variable_size_commands, dual_phase_commands, TEE_IOC_VERSION,
        TEE_IOC_OPEN_SESSION, TEE_IOC_INVOKE, TEE_IOC_SUPPL_RECV, TEE_IOC_SUPPL_SEND,
        TEE_IOC_SHM_ALLOC, TEE_IOC_SHM_REGISTER_FD, TEE_IOC_SHM_REGISTER]

theorem continue_only_at_entry_witness :
    (TEE_IOC_INVOKE ∈ handled_codes ∧
      (sample_tcb false false 56 invoke_one_param_image).entering = false) ∧
    (tee_ioctl (sample_tcb false false 56 invoke_one_param_image) TEE_IOC_INVOKE 4096).rval =
      RVAL_IOCTL_DECODED ∧
    (tee_ioctl (sample_tcb true false 56 invoke_one_param_image) TEE_IOC_INVOKE 4096).rval = 0 :=
  ⟨⟨by decide, by decide⟩,
   (continue_only_at_entry (sample_tcb false false 56 invoke_one_param_image) TEE_IOC_INVOKE
      4096 (by decide)).1 (by decide),
   (continue_only_at_entry (sample_tcb true false 56 invoke_one_param_image) TEE_IOC_INVOKE
      4096 (by decide)).2.1.mpr
      ⟨by decide, Or.inr (Or.inl ⟨24, 20, by decide, by decide⟩)⟩⟩

/-- C17 (failing input): Invoke with `arg = 4096`; at entry the header holds
`buf_len = 56`, `buf_ptr = 8192` and the struct holds `num_params = 1` followed
by one record, so entry returns the continue value with one `{` left open.  When
at exit the call did not fail and the header now holds `buf_len = 8` (below the
struct size), or is unreadable, the exit phase bails after ` => ` and the header
rendering (or the address) and never closes that bracket; when the call failed,
or the exit-phase validation succeeds, the sibling paths close it. -/
theorem exit_bail_leaves_bracket_open :
    (tee_invoke (sample_tcb true false 56 invoke_one_param_image) 4096).rval = 0 ∧
    (tee_invoke (sample_tcb false false 8 invoke_one_param_image) 4096).out =
      tprints " => " ++ tee_print_buf { buf_len := 8, buf_ptr := 8192 } ∧
    open_brackets (entry_then_exit tee_invoke
      (sample_tcb true false 56 invoke_one_param_image)
      (sample_tcb false false 8 invoke_one_param_image) 4096) = 4 ∧
    close_brackets (entry_then_exit tee_invoke
      (sample_tcb true false 56 invoke_one_param_image)
      (sample_tcb false false 8 invoke_one_param_image) 4096) = 3 ∧
    (tee_invoke (shm_tcb false false []) 4096).out = tprints " => " ++ printaddr 4096 ∧
    open_brackets (entry_then_exit tee_invoke
      (sample_tcb true false 56 invoke_one_param_image)
      (shm_tcb false false []) 4096) = 3 ∧
    close_brackets (entry_then_exit tee_invoke
      (sample_tcb true false 56 invoke_one_param_image)
      (shm_tcb false false []) 4096) = 2 ∧
    open_brackets (entry_then_exit tee_invoke
      (sample_tcb true false 56 invoke_one_param_image)
      (sample_tcb false true 56 invoke_one_param_image) 4096) =
    close_brackets (entry_then_exit tee_invoke
      (sample_tcb true false 56 invoke_one_param_image)
      (sample_tcb false true 56 invoke_one_param_image) 4096) ∧
    open_brackets (entry_then_exit tee_invoke
      (sample_tcb true false 56 invoke_one_param_image)
      (sample_tcb false false 56 invoke_one_param_image) 4096) =
    close_brackets (entry_then_exit tee_invoke
      (sample_tcb true false 56 invoke_one_param_image)
      (sample_tcb false false 56 invoke_one_param_image) 4096) := by
  decide

end Tee
